import Mathlib

/-!
Verification of the Asterisk-AI-Voice-Agent core against its specification.

The development shallowly embeds the Python source of the repository:

* `src/src/pipelines/azure.py` — option merging (`_merge_dicts`, the adapters'
  `_compose_options`), audio chunking (`_chunk_audio`), the WAV codec helpers
  (`_pcm16le_to_wav`, `_wav_to_pcm16le`, which delegate to the CPython `wave`
  module whose writer/reader behaviour for mono/16-bit streams is modelled
  byte-for-byte), SSML construction (`_build_ssml`), TTS response decoding
  (`_decode_tts_audio`), and the STT/TTS adapter entry points with their
  empty-input short circuits and HTTP error handling.
* `src/src/tools/telephony/exit_ari.py` — the `exit_ari` tool's `execute`.
* `src/src/tools/adapters/deepgram.py` — `handle_tool_call_event`.
* the `tts_only` pipeline normalization, whose implementation file is not in
  the source tree (only its unit tests are); it is modelled from the spec.

Python dictionaries are embedded as insertion-ordered association lists of
`PyVal` values, byte strings as `List Nat`, and text as `List Char` / `String`.
Network and session side effects are reified as an explicit `Effect` trace so
that "no network call happens" is a provable statement.  The stdlib pieces the
source leans on (`json.loads`, `bytes.decode`) are treated as boundary data:
an `HttpResponse` carries both the raw body text and the JSON value that
`json.loads` yields on it (or `none` if it fails).
-/

/-- Embedded Python value: the subset of Python values that flow through the
option dictionaries, JSON payloads and tool results of the source
(`None`, booleans, integers, strings and nested dicts). -/
inductive PyVal where
  | vnone : PyVal
  | vbool (b : Bool) : PyVal
  | vint (n : Int) : PyVal
  | vstr (s : String) : PyVal
  | vdict (d : List (String × PyVal)) : PyVal

/-- A Python dict: insertion-ordered association list (keys unique in any
dict produced by Python itself). -/
abbrev PyDict := List (String × PyVal)

/-- `d[k]` lookup returning `none` when the key is absent (`dict.get(k)`). -/
def pyLookup (d : PyDict) (k : String) : Option PyVal :=
  match d with
  | [] => none
  | (k', v) :: rest => if k' = k then some v else pyLookup rest k

/-- `d[k] = v` assignment: replaces the value in place if the key exists
(keeping its position, as CPython dicts do) and appends otherwise. -/
def pySet (d : PyDict) (k : String) (v : PyVal) : PyDict :=
  match d with
  | [] => [(k, v)]
  | (k', v') :: rest => if k' = k then (k, v) :: rest else (k', v') :: pySet rest k v

/-- `d.get(k, default)`. -/
def pyGetD (d : PyDict) (k : String) (default : PyVal) : PyVal :=
  match pyLookup d k with
  | some v => v
  | none => default

/-- Python truthiness of an embedded value (`bool(v)`). -/
def pyTruthy : PyVal → Bool
  | .vnone => false
  | .vbool b => b
  | .vint n => n != 0
  | .vstr s => s != ""
  | .vdict [] => false
  | .vdict (_ :: _) => true

/-- `str(v)` for the embedded values (shapes actually reached by the source:
strings pass through, ints print, `None`/bools print Python-style). -/
def pyStr : PyVal → String
  | .vnone => "None"
  | .vbool b => if b then "True" else "False"
  | .vint n => toString n
  | .vstr s => s
  | .vdict _ => "dict-repr"

/-- `a or b` on embedded values (Python short-circuit `or`). -/
def pyOr (a b : PyVal) : PyVal := if pyTruthy a then a else b

mutual

/-- `src/src/pipelines/azure.py:42-50` — `_merge_dicts(base, override)`:
start from a copy of `base`; for each key of `override` in order, recursively
merge when both sides hold dicts, copy the override value when it is not
`None`, and keep the base value when the override value is `None`. -/
def _merge_dicts : PyDict → PyDict → PyDict
  | base, [] => base
  | base, (k, v) :: rest => _merge_dicts (_merge_step base k v) rest
termination_by _ ov => sizeOf ov

/-- One iteration of the `_merge_dicts` override loop: how the accumulated
dict changes for a single `(key, value)` item of the override dict
(the body of the `for key, value in override.items()` loop). -/
def _merge_step (base : PyDict) (k : String) (v : PyVal) : PyDict :=
  match v, pyLookup base k with
  | .vdict dov, some (.vdict db) => pySet base k (.vdict (_merge_dicts db dov))
  | .vnone, _ => base
  | _, _ => pySet base k v
termination_by sizeOf v

end

/-- Three-level merge in precedence order, lowest to highest:
provider defaults < pipeline options < runtime options (spec §4.2 step 3). -/
def mergeThree (defaults pipeline runtime : PyDict) : PyDict :=
  _merge_dicts (_merge_dicts defaults pipeline) runtime

/-- `struct.pack` of a 16-bit little-endian field. -/
def u16le (n : Nat) : List Nat := [n % 256, n / 256 % 256]

/-- `struct.pack` of a 32-bit little-endian field. -/
def u32le (n : Nat) : List Nat := [n % 256, n / 256 % 256, n / 65536 % 256, n / 16777216 % 256]

/-- `struct.unpack` of a 16-bit little-endian field from exactly two bytes. -/
def u16dec : List Nat → Nat
  | [a, b] => a + 256 * b
  | _ => 0

/-- `struct.unpack` of a 32-bit little-endian field from exactly four bytes. -/
def u32dec : List Nat → Nat
  | [a, b, c, d] => a + 256 * b + 65536 * c + 16777216 * d
  | _ => 0

/-- The ASCII bytes of the RIFF chunk id `b"RIFF"`. -/
def asciiRIFF : List Nat := [82, 73, 70, 70]

/-- The ASCII bytes of `b"WAVE"`. -/
def asciiWAVE : List Nat := [87, 65, 86, 69]

/-- The ASCII bytes of the format chunk id `b"fmt "`. -/
def asciiFmtId : List Nat := [102, 109, 116, 32]

/-- The ASCII bytes of the data chunk id `b"data"`. -/
def asciiDataId : List Nat := [100, 97, 116, 97]

/-- `src/src/pipelines/azure.py:69-77` — `_pcm16le_to_wav(audio_pcm16, rate)`:
wrap raw PCM16-LE bytes in a WAV container via the CPython `wave` writer with
`nchannels=1`, `sampwidth=2`, `framerate=rate`, one `writeframes` call.
Modelled byte-for-byte from `wave.Wave_write`: the header is emitted with the
data length patched to the number of bytes actually written; `wave.Error`
(rate `<= 0`) and `struct.error` (a packed 32-bit field overflowing) are the
error outcomes. -/
def _pcm16le_to_wav (pcm : List Nat) (rate : Nat) : Except String (List Nat) :=
  if rate = 0 then .error "bad frame rate"
  else if 4294967296 ≤ 2 * rate then .error "struct.error: rate field overflow"
  else if 4294967296 ≤ 36 + pcm.length then .error "struct.error: size field overflow"
  else .ok (asciiRIFF ++ u32le (36 + pcm.length) ++ asciiWAVE ++ asciiFmtId ++ u32le 16 ++
    u16le 1 ++ u16le 1 ++ u32le rate ++ u32le (2 * rate) ++ u16le 2 ++ u16le 16 ++
    asciiDataId ++ u32le pcm.length ++ pcm)

/-- Format-chunk facts the `wave` reader keeps: sampling rate and frame size
(`nchannels * sampwidth`). -/
structure WavFmt where
  rate : Nat
  framesize : Nat

/-- The chunk loop of `wave.Wave_read.initfp` on the byte stream inside the
RIFF chunk: scan chunks (4-byte id, 32-bit LE size, contents, 2-byte
alignment padding) until the `data` chunk; `fmt ` chunks must supply PCM
format data before `data` arrives; reads are bounded by both the declared
chunk size and the bytes actually available, and `readframes(nframes)` with
`nframes = chunksize // framesize` returns whole frames only. -/
def parseWavChunks (s : List Nat) (fmt : Option WavFmt) : Except String (List Nat × Nat) :=
  match s with
  | n1 :: n2 :: n3 :: n4 :: z1 :: z2 :: z3 :: z4 :: rest =>
    let size := u32dec [z1, z2, z3, z4]
    let contents := rest.take size
    if [n1, n2, n3, n4] = asciiFmtId then
      match contents with
      | t1 :: t2 :: c1 :: c2 :: r1 :: r2 :: r3 :: r4 :: _ :: _ :: _ :: _ :: _ :: _ :: w1 :: w2 :: _ =>
        if u16dec [t1, t2] ≠ 1 then .error "unknown format"
        else
          let nch := u16dec [c1, c2]
          let sw := (u16dec [w1, w2] + 7) / 8
          if sw = 0 then .error "bad sample width"
          else if nch = 0 then .error "bad number of channels"
          else parseWavChunks (rest.drop (size + size % 2))
            (some ⟨u32dec [r1, r2, r3, r4], nch * sw⟩)
      | _ => .error "EOF inside fmt chunk"
    else if [n1, n2, n3, n4] = asciiDataId then
      match fmt with
      | none => .error "data chunk before fmt chunk"
      | some f =>
          let nframes := size / f.framesize
          .ok (contents.take (nframes * f.framesize), f.rate)
    else parseWavChunks (rest.drop (size + size % 2)) fmt
  | _ => .error "fmt chunk and/or data chunk missing"
termination_by s.length
decreasing_by all_goals (simp [List.length_drop]; omega)

/-- `src/src/pipelines/azure.py:80-88` — `_wav_to_pcm16le(wav_bytes)`: extract
the PCM frames and sample rate via the CPython `wave` reader; every reader
exception (truncated stream, bad ids, non-PCM format tag) is re-raised as
`RuntimeError`, modelled as `Except.error`.  The outer RIFF chunk bounds all
inner reads by its declared size. -/
def _wav_to_pcm16le (bs : List Nat) : Except String (List Nat × Nat) :=
  match bs with
  | r1 :: r2 :: r3 :: r4 :: z1 :: z2 :: z3 :: z4 :: rest =>
    if [r1, r2, r3, r4] ≠ asciiRIFF then .error "file does not start with RIFF id"
    else
      let riffSize := u32dec [z1, z2, z3, z4]
      if riffSize < 4 then .error "not a WAVE file"
      else
        match rest with
        | w1 :: w2 :: w3 :: w4 :: body =>
          if [w1, w2, w3, w4] ≠ asciiWAVE then .error "not a WAVE file"
          else parseWavChunks (body.take (riffSize - 4)) none
        | _ => .error "not a WAVE file"
  | _ => .error "unexpected end of file"

/-- `str.lower()` (the format keys the source lowers are ASCII). -/
def pyLower (s : String) : String := String.mk (s.data.map Char.toLower)

/-- Whether `pat` is an initial segment of `s` (helper for the Python `in`
substring test). -/
def startsWithL : List Char → List Char → Bool
  | [], _ => true
  | _ :: _, [] => false
  | p :: ps, c :: cs => p == c && startsWithL ps cs

/-- Contiguous-substring occurrence of `pat` in a character list. -/
def containsL (pat : List Char) : List Char → Bool
  | [] => pat.isEmpty
  | c :: cs => startsWithL pat (c :: cs) || containsL pat cs

/-- Python `needle in hay` on strings. -/
def pyInStr (needle hay : String) : Bool := containsL needle.data hay.data

/-- Association-list lookup by string key (Python dict lookup for the
constant tables of the source). -/
def lookupAssoc {α : Type} : List (String × α) → String → Option α
  | [], _ => none
  | (k, v) :: rest, q => if k = q then some v else lookupAssoc rest q

/-- `src/src/pipelines/azure.py:146-157` — `_AZURE_FORMAT_INFO`: maps an
Azure `output_format` to `(native_encoding, riff_wrapped)`. -/
def _AZURE_FORMAT_INFO : List (String × (String × Bool)) :=
  [("raw-8khz-8bit-mono-mulaw", ("mulaw", false)),
   ("raw-8khz-8bit-mono-alaw", ("alaw", false)),
   ("raw-8khz-16bit-mono-pcm", ("pcm16", false)),
   ("raw-16khz-16bit-mono-pcm", ("pcm16", false)),
   ("raw-24khz-16bit-mono-pcm", ("pcm16", false)),
   ("riff-8khz-16bit-mono-pcm", ("pcm16", true)),
   ("riff-16khz-16bit-mono-pcm", ("pcm16", true)),
   ("riff-24khz-16bit-mono-pcm", ("pcm16", true))]

/-- `src/src/pipelines/azure.py:160-207` — `_decode_tts_audio(raw, fmt)`:
decode an Azure TTS response body to `(bytes, sample_rate, encoding)`.
An empty format string falls back to `riff-8khz-16bit-mono-pcm` before the
table lookup; an unknown key attempts a WAV decode and degrades to
`(raw, 8000, "unknown")`; a known riff key that fails WAV decoding raises
(`Except.error`); raw PCM keys derive the rate from the key text. -/
def _decode_tts_audio (raw : List Nat) (output_format : String) :
    Except String (List Nat × Nat × String) :=
  let fmt_lower :=
    pyLower (if output_format = "" then "riff-8khz-16bit-mono-pcm" else output_format)
  match lookupAssoc _AZURE_FORMAT_INFO fmt_lower with
  | none =>
      match _wav_to_pcm16le raw with
      | .ok (pcm, rate) => .ok (pcm, rate, "pcm16")
      | .error _ => .ok (raw, 8000, "unknown")
  | some (native_encoding, is_riff) =>
      if native_encoding = "mulaw" then .ok (raw, 8000, "mulaw")
      else if native_encoding = "alaw" then .ok (raw, 8000, "alaw")
      else if is_riff then
        match _wav_to_pcm16le raw with
        | .ok (pcm, rate) => .ok (pcm, rate, "pcm16")
        | .error e =>
            .error ("Azure TTS WAV decode failed for format '" ++ output_format ++
              "': " ++ e)
      else
        let rate :=
          if pyInStr "8khz" fmt_lower then 8000
          else if pyInStr "16khz" fmt_lower then 16000
          else if pyInStr "24khz" fmt_lower then 24000
          else 16000
        .ok (raw, rate, "pcm16")

/-- `Except` success test (used to state that a call does not raise). -/
def exceptOk {ε α : Type} : Except ε α → Bool
  | .ok _ => true
  | .error _ => false

/-- Decidable equality on `Except`, so that concrete adapter outcomes can be
checked by `decide`. -/
instance {ε α : Type} [DecidableEq ε] [DecidableEq α] : DecidableEq (Except ε α) :=
  fun a b =>
    match a, b with
    | .ok x, .ok y =>
        if h : x = y then isTrue (congrArg Except.ok h)
        else isFalse (fun hh => h (Except.ok.inj hh))
    | .error x, .error y =>
        if h : x = y then isTrue (congrArg Except.error h)
        else isFalse (fun hh => h (Except.error.inj hh))
    | .ok _, .error _ => isFalse (fun hh => Except.noConfusion hh)
    | .error _, .ok _ => isFalse (fun hh => Except.noConfusion hh)

/-- `src/src/pipelines/azure.py:53-57` — `_bytes_per_sample(encoding)`:
1 for mu-law/A-law names, 2 otherwise (pcm16, slin, slin16). -/
def _bytes_per_sample (encoding : String) : Nat :=
  let fmt := pyLower encoding
  if fmt = "ulaw" ∨ fmt = "mulaw" ∨ fmt = "mu-law" ∨ fmt = "alaw" then 1 else 2

/-- Fuel-driven floor of the base-2 logarithm of a positive natural number
(the fuel `n` itself always suffices since the argument halves each step). -/
def natLog2Aux : Nat → Nat → Nat
  | 0, _ => 0
  | fuel + 1, n => if n ≤ 1 then 0 else natLog2Aux fuel (n / 2) + 1

/-- `Nat.log2` as a structurally recursive function (so that concrete frame
sizes evaluate inside the kernel). -/
def natLog2 (n : Nat) : Nat := natLog2Aux n n

/-- A nonnegative rational as a raw numerator/denominator pair (never
normalized, so every operation is a plain kernel-computable product — all
the values the float model produces keep a positive denominator). -/
structure QP where
  num : Nat
  den : Nat

/-- `q * 2 ^ k` on raw pairs, for an integer exponent. -/
def qpMulPow2 (q : QP) (k : Int) : QP :=
  if 0 ≤ k then ⟨q.num * 2 ^ k.toNat, q.den⟩ else ⟨q.num, q.den * 2 ^ (-k).toNat⟩

/-- `2 ^ k ≤ q` on raw pairs. -/
def qpPow2Le (k : Int) (q : QP) : Bool :=
  if 0 ≤ k then 2 ^ k.toNat * q.den ≤ q.num else q.den ≤ q.num * 2 ^ (-k).toNat

/-- `⌊q⌋` of a nonnegative raw pair. -/
def qpFloor (q : QP) : Nat := q.num / q.den

/-- The floor of the base-2 logarithm of a positive raw pair: the bit
lengths of numerator and denominator pin it to one of two candidates, and
two comparisons select it. -/
def floorlog2q (q : QP) : Int :=
  let e0 : Int := (natLog2 q.num : Int) - (natLog2 q.den : Int)
  if qpPow2Le (e0 + 1) q then e0 + 1
  else if qpPow2Le e0 q then e0
  else e0 - 1

/-- Round a nonnegative rational to the nearest IEEE-754 binary64 value
(round to nearest, ties to even, subnormals at `2 ^ -1074`); `none` is
overflow to infinity.  This is the arithmetic CPython floats perform; the
program only ever produces nonnegative values here. -/
def roundQ (q : QP) : Option QP :=
  if q.num = 0 then some ⟨0, 1⟩
  else
    let e := floorlog2q q
    let u := max (e - 52) (-1074)
    let scaled := qpMulPow2 q (-u)
    let n := qpFloor scaled
    let fr2 := 2 * (scaled.num - n * scaled.den)
    let m := if scaled.den < fr2 then n + 1
      else if fr2 < scaled.den then n
      else if n % 2 = 0 then n else n + 1
    let v := qpMulPow2 ⟨m, 1⟩ u
    if 2 ^ 1024 * v.den ≤ v.num then none else some v

/-- A (nonnegative) CPython float: a finite binary64 value, or infinity. -/
inductive PyFloat where
  | finite (q : QP) : PyFloat
  | inf : PyFloat

/-- `float(n)` on a Python int: `OverflowError` when it rounds beyond the
binary64 range. -/
def pyFloatOfNat (n : Nat) : Except String PyFloat :=
  match roundQ ⟨n, 1⟩ with
  | some v => .ok (.finite v)
  | none => .error "OverflowError: int too large to convert to float"

/-- Division of a float by the exact literal `1000.0`, rounded. -/
def pyFloatDiv1000 : PyFloat → PyFloat
  | .finite a =>
      match roundQ ⟨a.num, a.den * 1000⟩ with
      | some v => .finite v
      | none => .inf
  | .inf => .inf

/-- Float multiplication, rounded; in this program an infinite operand is
only ever paired with a positive finite one, so `inf * x = inf`. -/
def pyFloatMul : PyFloat → PyFloat → PyFloat
  | .finite a, .finite b =>
      match roundQ ⟨a.num * b.num, a.den * b.den⟩ with
      | some v => .finite v
      | none => .inf
  | _, _ => .inf

/-- `int(x)` on a nonnegative float: truncation (`OverflowError` on
infinity). -/
def pyFloatTruncNat : PyFloat → Except String Nat
  | .finite q => .ok (qpFloor q)
  | .inf => .error "OverflowError: cannot convert float infinity to integer"

/-- `int(sample_rate * (chunk_ms / 1000.0) * bytes_per_sample)` exactly as
CPython evaluates it: each operand is converted to binary64 and each
operation rounds to nearest/ties-even (left-associated products), with the
`OverflowError`s of the conversions and of `int(inf)`. -/
def _chunk_float_frame (sample_rate chunk_ms bps : Nat) : Except String Nat :=
  match pyFloatOfNat chunk_ms with
  | .error e => .error e
  | .ok cm =>
    match pyFloatOfNat sample_rate with
    | .error e => .error e
    | .ok sr =>
      match pyFloatOfNat bps with
      | .error e => .error e
      | .ok bf => pyFloatTruncNat (pyFloatMul (pyFloatMul sr (pyFloatDiv1000 cm)) bf)

/-- The frame size of `_chunk_audio` (`src/src/pipelines/azure.py:64`):
`max(bytes_per_sample, int(sample_rate * (chunk_ms / 1000.0) *
bytes_per_sample))`, with the inner product computed in binary64 float
arithmetic as the source does — which can differ from the exact integer
floor (e.g. 57 versus 58 at `sample_rate=100, chunk_ms=290`, pcm16). -/
def _chunk_frame_size (encoding : String) (sample_rate chunk_ms : Nat) :
    Except String Nat :=
  let bps := _bytes_per_sample encoding
  match _chunk_float_frame sample_rate chunk_ms bps with
  | .error e => .error e
  | .ok v => .ok (max bps v)

/-- The `for idx in range(0, len(audio_bytes), frame_size)` slicing loop of
`_chunk_audio`.  The `frame = 0` arm is unreachable from `_chunk_audio`
(`frame_size >= bytes_per_sample >= 1`; in Python a zero `range` step raises
`ValueError` before yielding anything). -/
def chunkGo : Nat → List Nat → List (List Nat)
  | _, [] => []
  | 0, _ :: _ => []
  | f + 1, c :: cs => (c :: cs).take (f + 1) :: chunkGo (f + 1) ((c :: cs).drop (f + 1))
termination_by _ l => l.length
decreasing_by all_goals (simp [List.length_drop]; omega)

/-- `src/src/pipelines/azure.py:60-66` — `_chunk_audio(audio_bytes, encoding,
sample_rate, chunk_ms)`: empty input yields nothing before the frame size is
computed; otherwise slice the bytes into `frame_size`-byte chunks in order
(an `OverflowError` from the float frame-size computation propagates). -/
def _chunk_audio (audioBytes : List Nat) (encoding : String) (sample_rate chunk_ms : Nat) :
    Except String (List (List Nat)) :=
  if audioBytes = [] then .ok []
  else
    match _chunk_frame_size encoding sample_rate chunk_ms with
    | .error e => .error e
    | .ok f => .ok (chunkGo f audioBytes)

/-- `str.replace(old, new)` where `old` is one character: each occurrence of
`c` expands to `rep`. -/
def pyReplaceChar (c : Char) (rep : List Char) : List Char → List Char
  | [] => []
  | x :: xs => if x = c then rep ++ pyReplaceChar c rep xs else x :: pyReplaceChar c rep xs

/-- The escaping chain of `_build_ssml` (`src/src/pipelines/azure.py:127-134`):
replace `&` first, then `<`, `>`, `"`, `'`, each by its XML entity. -/
def _escape_ssml_text (t : List Char) : List Char :=
  pyReplaceChar '\'' "&apos;".data
    (pyReplaceChar '"' "&quot;".data
      (pyReplaceChar '>' "&gt;".data
        (pyReplaceChar '<' "&lt;".data
          (pyReplaceChar '&' "&amp;".data t))))

/-- `str.split(sep)` for a one-character separator (always returns one part
more than the number of separators; the empty string yields one empty part). -/
def splitOnChar (c : Char) : List Char → List (List Char)
  | [] => [[]]
  | x :: xs =>
      let r := splitOnChar c xs
      if x = c then [] :: r
      else
        match r with
        | [] => [[x]]
        | h :: t => (x :: h) :: t

/-- `sep.join(parts)` for a one-character separator. -/
def joinWithChar (c : Char) : List (List Char) → List Char
  | [] => []
  | [x] => x
  | x :: y :: t => x ++ c :: joinWithChar c (y :: t)

/-- The `xml:lang` computation of `_build_ssml`
(`src/src/pipelines/azure.py:126`): by Python operator precedence the line
`lang = language or "-".join(voice_name.split("-")[:2]) if "-" in voice_name
else "en-US"` parses as a conditional on `"-" in voice_name`, so a voice name
without a hyphen forces `"en-US"` even when a non-empty language was given. -/
def _ssml_lang (language voice_name : String) : String :=
  if containsL ['-'] voice_name.data then
    (if language ≠ "" then language
     else String.mk (joinWithChar '-' ((splitOnChar '-' voice_name.data).take 2)))
  else "en-US"

/-- `src/src/pipelines/azure.py:123-139` — `_build_ssml(text, voice_name,
language)`: one `speak` element holding one `voice` element whose text
content is the escaped input. -/
def _build_ssml (text voice_name language : String) : String :=
  "<speak version='1.0' xml:lang='" ++ _ssml_lang language voice_name ++
    "'><voice name='" ++ voice_name ++ "'>" ++
    String.mk (_escape_ssml_text text.data) ++ "</voice></speak>"

/-- A JSON value as `json.loads` yields it (the payload shapes the STT
response parsers inspect). -/
inductive JVal where
  | jnull : JVal
  | jbool (b : Bool) : JVal
  | jnum (n : Int) : JVal
  | jstr (s : String) : JVal
  | jarr (xs : List JVal) : JVal
  | jobj (fields : List (String × JVal)) : JVal

/-- Python truthiness of a JSON-derived value. -/
def jTruthy : JVal → Bool
  | .jnull => false
  | .jbool b => b
  | .jnum n => n != 0
  | .jstr s => s != ""
  | .jarr [] => false
  | .jarr (_ :: _) => true
  | .jobj [] => false
  | .jobj (_ :: _) => true

/-- `str(v)` of a JSON-derived value (only strings/numbers are reached by the
parsers on the payload shapes the theorems exercise). -/
def jToStr : JVal → String
  | .jnull => "None"
  | .jbool b => if b then "True" else "False"
  | .jnum n => toString n
  | .jstr s => s
  | .jarr _ => "json-list-repr"
  | .jobj _ => "json-dict-repr"

/-- Python `str.strip()` over the ASCII whitespace the responses contain. -/
def isPySpace (c : Char) : Bool :=
  c = ' ' ∨ c = '\t' ∨ c = '\n' ∨ c = '\r' ∨ c = '\x0b' ∨ c = '\x0c'

/-- `s.strip()`. -/
def pyStrip (s : String) : String :=
  String.mk (((s.data.dropWhile isPySpace).reverse.dropWhile isPySpace).reverse)

/-- `s[:n]` (truncation used in the error messages). -/
def strTake (n : Nat) (s : String) : String := String.mk (s.data.take n)

/-- The outcome of one HTTP exchange, as the adapter observes it after
`resp.read()`: the status, the body decoded with
`raw.decode("utf-8", errors="ignore")`, and the result of the stdlib
`json.loads` on that body (`none` when it fails) — the two stdlib decodes
are boundary data of the embedding. -/
structure HttpResponse where
  status : Nat
  bodyText : String
  bodyJson : Option JVal

/-- Observable side effects of an adapter call: touching the shared
`aiohttp` session and issuing the network request. -/
inductive Effect where
  | ensureSession : Effect
  | httpPost (url : String) : Effect
deriving DecidableEq

/-- The static `AzureSTTProviderConfig` fields the STT adapters read
(`request_timeout_sec` is a float in the source; the embedding carries it as
an integer, which the claims never inspect arithmetically). -/
structure AzureSTTProviderConfig where
  api_key : String
  region : String
  language : String
  fast_stt_base_url : String
  realtime_stt_base_url : String
  request_timeout_sec : Int

/-- The static `AzureTTSProviderConfig` fields the TTS adapter reads. -/
structure AzureTTSProviderConfig where
  api_key : String
  region : String
  tts_base_url : String
  voice_name : String
  output_format : String
  target_encoding : String
  target_sample_rate_hz : Int
  chunk_size_ms : Int
  request_timeout_sec : Int

/-- `float(v)` on an embedded value: numbers pass, `None`/dicts raise
`TypeError` (numeric strings, which no call site produces, are not
modelled). -/
def pyFloat : PyVal → Except String PyVal
  | .vint n => .ok (.vint n)
  | .vbool b => .ok (.vint (if b then 1 else 0))
  | v => .error ("TypeError: float() argument: " ++ pyStr v)

/-- `int(v)` on an embedded value, same scope as `pyFloat`. -/
def pyInt : PyVal → Except String PyVal
  | .vint n => .ok (.vint n)
  | .vbool b => .ok (.vint (if b then 1 else 0))
  | v => .error ("TypeError: int() argument: " ++ pyStr v)

/-- The natural number carried by an embedded int (rate/chunk values; only
`vint` is produced by the surrounding coercions). -/
def pyToNat : PyVal → Nat
  | .vint n => n.toNat
  | _ => 0

/-- `src/src/pipelines/azure.py:91-92` — the Fast Transcription URL. -/
def _build_azure_stt_fast_url (region : String) : String :=
  "https://" ++ region ++
    ".api.cognitive.microsoft.com/speechtotext/transcriptions:transcribe?api-version=2025-10-01"

/-- `src/src/pipelines/azure.py:95-100` — the Real-Time STT URL. -/
def _build_azure_stt_realtime_url (region language : String) : String :=
  "https://" ++ region ++
    ".stt.speech.microsoft.com/speech/recognition/conversation/cognitiveservices/v1?language=" ++
    language

/-- `src/src/pipelines/azure.py:103-104` — the TTS URL. -/
def _build_azure_tts_url (region : String) : String :=
  "https://" ++ region ++ ".tts.speech.microsoft.com/cognitiveservices/v1"

/-- `src/src/pipelines/azure.py:356-381` — `AzureSTTFastAdapter._compose_options`:
a flat, per-key three-level lookup `runtime.get(k, pipeline.get(k, provider.k))`
for the five fixed option keys, with `float()` applied to the timeout (the
adapter's `_default_timeout` is itself `float(pipeline.get(k, provider.k))`).
Unlike `_merge_dicts`, a key present with value `None` in a higher level is
taken as-is. -/
def fast_compose_options (provider : AzureSTTProviderConfig)
    (pipe runtime : PyDict) : Except String PyDict :=
  match pyFloat (pyGetD pipe "request_timeout_sec" (.vint provider.request_timeout_sec)) with
  | .error e => .error e
  | .ok dt =>
    match pyFloat (pyGetD runtime "request_timeout_sec"
        (pyGetD pipe "request_timeout_sec" dt)) with
    | .error e => .error e
    | .ok t =>
      .ok [("api_key", pyGetD runtime "api_key"
              (pyGetD pipe "api_key" (.vstr provider.api_key))),
           ("region", pyGetD runtime "region"
              (pyGetD pipe "region" (.vstr provider.region))),
           ("fast_stt_base_url", pyGetD runtime "fast_stt_base_url"
              (pyGetD pipe "fast_stt_base_url" (.vstr provider.fast_stt_base_url))),
           ("language", pyGetD runtime "language"
              (pyGetD pipe "language" (.vstr provider.language))),
           ("request_timeout_sec", t)]

/-- `src/src/pipelines/azure.py:522-547` — `AzureSTTRealtimeAdapter._compose_options`:
same shape with `realtime_stt_base_url` in place of `fast_stt_base_url`. -/
def realtime_compose_options (provider : AzureSTTProviderConfig)
    (pipe runtime : PyDict) : Except String PyDict :=
  match pyFloat (pyGetD pipe "request_timeout_sec" (.vint provider.request_timeout_sec)) with
  | .error e => .error e
  | .ok dt =>
    match pyFloat (pyGetD runtime "request_timeout_sec"
        (pyGetD pipe "request_timeout_sec" dt)) with
    | .error e => .error e
    | .ok t =>
      .ok [("api_key", pyGetD runtime "api_key"
              (pyGetD pipe "api_key" (.vstr provider.api_key))),
           ("region", pyGetD runtime "region"
              (pyGetD pipe "region" (.vstr provider.region))),
           ("realtime_stt_base_url", pyGetD runtime "realtime_stt_base_url"
              (pyGetD pipe "realtime_stt_base_url" (.vstr provider.realtime_stt_base_url))),
           ("language", pyGetD runtime "language"
              (pyGetD pipe "language" (.vstr provider.language))),
           ("request_timeout_sec", t)]

/-- The `phrases` fallback of `AzureSTTFastAdapter._parse_transcript`
(`src/src/pipelines/azure.py:348-354`): gather the truthy `text` fields of
the phrase objects; `" ".join` then demands strings (a truthy non-string
`text` raises `TypeError` at the join, modelled here at collection time). -/
def fastPhrasesTexts : List JVal → Except String (List String)
  | [] => .ok []
  | p :: ps =>
      match p with
      | .jobj pf =>
          let tv := match lookupAssoc pf "text" with
            | some v => v
            | none => .jstr ""
          match fastPhrasesTexts ps with
          | .error e => .error e
          | .ok rest =>
              if jTruthy tv then
                match tv with
                | .jstr t => .ok (t :: rest)
                | _ => .error "TypeError: sequence item is not a str"
              else .ok rest
      | _ => .error "AttributeError: get on non-dict phrase"

/-- `" ".join(texts)`. -/
def joinSpace : List String → String
  | [] => ""
  | [s] => s
  | s :: t :: r => s ++ " " ++ joinSpace (t :: r)

/-- `src/src/pipelines/azure.py:336-354` — `AzureSTTFastAdapter._parse_transcript`:
on a JSON object take `combinedPhrases[0].text` when present and truthy, else
join the truthy `phrases[*].text`, else the empty string; a body that is not
JSON degrades to the stripped raw text. -/
def fast_parse_transcript (resp : HttpResponse) : Except String String :=
  match resp.bodyJson with
  | none => .ok (pyStrip resp.bodyText)
  | some (.jobj fields) =>
      let fallback : Except String String :=
        let phrases := match lookupAssoc fields "phrases" with
          | some v => if jTruthy v then v else .jarr []
          | none => .jarr []
        match phrases with
        | .jarr ps =>
            match fastPhrasesTexts ps with
            | .error e => .error e
            | .ok [] => .ok ""
            | .ok (t :: ts) => .ok (pyStrip (joinSpace (t :: ts)))
        | _ => .error "TypeError: phrases is not iterable as a list"
      match lookupAssoc fields "combinedPhrases" with
      | some (.jarr (first :: _)) =>
          match first with
          | .jobj ff =>
              let tv := match lookupAssoc ff "text" with
                | some v => v
                | none => .jnull
              if jTruthy tv then .ok (pyStrip (jToStr tv)) else fallback
          | _ => .error "AttributeError: get on non-dict combinedPhrases entry"
      | _ => fallback
  | some _ => .error "AttributeError: get on non-dict payload"

/-- `src/src/pipelines/azure.py:508-520` — `AzureSTTRealtimeAdapter._parse_transcript`:
`DisplayText` stripped when truthy, else the empty string; non-JSON bodies
degrade to the stripped raw text. -/
def realtime_parse_transcript (resp : HttpResponse) : Except String String :=
  match resp.bodyJson with
  | none => .ok (pyStrip resp.bodyText)
  | some (.jobj fields) =>
      let display := match lookupAssoc fields "DisplayText" with
        | some v => v
        | none => .jstr ""
      if jTruthy display then .ok (pyStrip (jToStr display)) else .ok ""
  | some _ => .error "AttributeError: get on non-dict payload"

/-- `src/src/pipelines/azure.py:265-328` — `AzureSTTFastAdapter.transcribe`:
empty audio returns `""` before any session or network activity; otherwise
the session is ensured, options composed, the api key demanded, the audio
WAV-wrapped, the request posted, a status `>= 400` raised with the status and
the body truncated to 256 characters, and the transcript parsed (`or ""`). -/
def fast_transcribe (provider : AzureSTTProviderConfig) (pipe : PyDict)
    (call_id : String) (audio_pcm16 : List Nat) (sample_rate_hz : Nat)
    (options : PyDict) (resp : HttpResponse) : List Effect × Except String String :=
  if audio_pcm16 = [] then ([], .ok "")
  else
    match fast_compose_options provider pipe options with
    | .error e => ([.ensureSession], .error e)
    | .ok merged =>
      let api_key := pyOr (pyGetD merged "api_key" .vnone) (.vstr "")
      if ¬ pyTruthy api_key then
        ([.ensureSession], .error "Azure STT Fast requires AZURE_SPEECH_KEY / api_key")
      else
        match _pcm16le_to_wav audio_pcm16 sample_rate_hz with
        | .error e => ([.ensureSession], .error e)
        | .ok _wav =>
          let url := pyStr (pyOr (pyGetD merged "fast_stt_base_url" .vnone)
            (.vstr (_build_azure_stt_fast_url (pyStr (pyGetD merged "region" .vnone)))))
          ([.ensureSession, .httpPost url],
           if 400 ≤ resp.status then
             .error ("Azure STT Fast request failed (status " ++ toString resp.status ++
               "): " ++ strTake 256 resp.bodyText)
           else
             match fast_parse_transcript resp with
             | .error e => .error e
             | .ok transcript => .ok (if transcript ≠ "" then transcript else ""))

/-- `src/src/pipelines/azure.py:439-500` — `AzureSTTRealtimeAdapter.transcribe`:
same shape as the fast adapter with the real-time URL. -/
def realtime_transcribe (provider : AzureSTTProviderConfig) (pipe : PyDict)
    (call_id : String) (audio_pcm16 : List Nat) (sample_rate_hz : Nat)
    (options : PyDict) (resp : HttpResponse) : List Effect × Except String String :=
  if audio_pcm16 = [] then ([], .ok "")
  else
    match realtime_compose_options provider pipe options with
    | .error e => ([.ensureSession], .error e)
    | .ok merged =>
      let api_key := pyOr (pyGetD merged "api_key" .vnone) (.vstr "")
      if ¬ pyTruthy api_key then
        ([.ensureSession], .error "Azure STT Realtime requires AZURE_SPEECH_KEY / api_key")
      else
        let language := pyStr (pyOr (pyGetD merged "language" .vnone) (.vstr provider.language))
        let region := pyStr (pyOr (pyGetD merged "region" .vnone) (.vstr provider.region))
        let url := pyStr (pyOr (pyGetD merged "realtime_stt_base_url" .vnone)
          (.vstr (_build_azure_stt_realtime_url region language)))
        match _pcm16le_to_wav audio_pcm16 sample_rate_hz with
        | .error e => ([.ensureSession], .error e)
        | .ok _wav =>
          ([.ensureSession, .httpPost url],
           if 400 ≤ resp.status then
             .error ("Azure STT Realtime request failed (status " ++ toString resp.status ++
               "): " ++ strTake 256 resp.bodyText)
           else
             match realtime_parse_transcript resp with
             | .error e => .error e
             | .ok transcript => .ok (if transcript ≠ "" then transcript else ""))

/-- `src/src/pipelines/azure.py:699-748` — `AzureTTSAdapter._compose_options`. -/
def tts_compose_options (provider : AzureTTSProviderConfig)
    (pipe runtime : PyDict) : Except String PyDict :=
  match pyInt (pyGetD pipe "chunk_size_ms" (.vint provider.chunk_size_ms)) with
  | .error e => .error e
  | .ok cdef =>
    match pyInt (pyGetD runtime "target_sample_rate_hz"
        (pyGetD pipe "target_sample_rate_hz" (.vint provider.target_sample_rate_hz))) with
    | .error e => .error e
    | .ok tr =>
      match pyInt (pyGetD runtime "chunk_size_ms" (pyGetD pipe "chunk_size_ms" cdef)) with
      | .error e => .error e
      | .ok cm =>
        match pyFloat (pyGetD runtime "request_timeout_sec"
            (pyGetD pipe "request_timeout_sec" (.vint provider.request_timeout_sec))) with
        | .error e => .error e
        | .ok t =>
          .ok [("api_key", pyGetD runtime "api_key"
                  (pyGetD pipe "api_key" (.vstr provider.api_key))),
               ("region", pyGetD runtime "region"
                  (pyGetD pipe "region" (.vstr provider.region))),
               ("tts_base_url", pyGetD runtime "tts_base_url"
                  (pyGetD pipe "tts_base_url" (.vstr provider.tts_base_url))),
               ("voice_name", pyGetD runtime "voice_name"
                  (pyGetD pipe "voice_name" (.vstr provider.voice_name))),
               ("language", pyGetD runtime "language" (pyGetD pipe "language" (.vstr ""))),
               ("output_format", pyGetD runtime "output_format"
                  (pyGetD pipe "output_format" (.vstr provider.output_format))),
               ("target_encoding", pyGetD runtime "target_encoding"
                  (pyGetD pipe "target_encoding" (.vstr provider.target_encoding))),
               ("target_sample_rate_hz", tr),
               ("chunk_size_ms", cm),
               ("request_timeout_sec", t)]

/-- The TTS HTTP exchange: status, raw audio body, and the
`errors="ignore"`-decoded text used only in the failure message. -/
structure TtsHttpResponse where
  status : Nat
  raw : List Nat
  bodyText : String

/-- `src/src/pipelines/azure.py:603-691` — `AzureTTSAdapter.synthesize`:
empty text yields no chunks before any session or network activity; otherwise
the request is posted, a status `>= 400` raised with status and truncated
body, the response decoded (`_decode_tts_audio`), resampled/re-encoded to the
target (through the codec collaborators passed in as functions), and chunked
with `_chunk_audio`, dropping empty chunks. -/
def tts_synthesize (provider : AzureTTSProviderConfig) (pipe : PyDict)
    (call_id text : String) (options : PyDict) (resp : TtsHttpResponse)
    (resample : List Nat → Nat → Nat → List Nat)
    (convert : List Nat → String → List Nat) :
    List Effect × Except String (List (List Nat)) :=
  if text = "" then ([], .ok [])
  else
    match tts_compose_options provider pipe options with
    | .error e => ([.ensureSession], .error e)
    | .ok merged =>
      let api_key := pyOr (pyGetD merged "api_key" .vnone) (.vstr "")
      if ¬ pyTruthy api_key then
        ([.ensureSession], .error "Azure TTS requires AZURE_SPEECH_KEY / api_key")
      else
        let region := pyStr (pyOr (pyGetD merged "region" .vnone) (.vstr provider.region))
        let url := pyStr (pyOr (pyGetD merged "tts_base_url" .vnone)
          (.vstr (_build_azure_tts_url region)))
        let voice_name := pyStr (pyOr (pyGetD merged "voice_name" .vnone)
          (.vstr provider.voice_name))
        let language := pyStr (pyOr (pyGetD merged "language" .vnone) (.vstr ""))
        let output_format := pyStr (pyOr (pyGetD merged "output_format" .vnone)
          (.vstr provider.output_format))
        let _ssml := _build_ssml text voice_name language
        ([.ensureSession, .httpPost url],
         if 400 ≤ resp.status then
           .error ("Azure TTS request failed (status " ++ toString resp.status ++ "): " ++
             strTake 256 resp.bodyText)
         else
           match _decode_tts_audio resp.raw output_format with
           | .error e => .error e
           | .ok (audioBytes, source_rate, native_encoding) =>
             let target_encoding := pyStr (pyOr (pyGetD merged "target_encoding" .vnone)
               (.vstr provider.target_encoding))
             let target_rate := pyToNat (pyOr (pyGetD merged "target_sample_rate_hz" .vnone)
               (.vint provider.target_sample_rate_hz))
             let converted :=
               if native_encoding = "mulaw" ∧ target_encoding = "mulaw" then audioBytes
               else if native_encoding = "pcm16" ∨ native_encoding = "pcm" then
                 convert (if source_rate ≠ target_rate then
                   resample audioBytes source_rate target_rate else audioBytes) target_encoding
               else audioBytes
             let chunk_ms := pyToNat (pyGetD merged "chunk_size_ms"
               (.vint provider.chunk_size_ms))
             match _chunk_audio converted target_encoding target_rate chunk_ms with
             | .error e => .error e
             | .ok chunks => .ok (chunks.filter (fun c => ¬ c.isEmpty)))

/-- Truthiness of an optional string (`not context.caller_channel_id`:
`None` and the empty string are falsy). -/
def optStrTruthy : Option String → Bool
  | none => false
  | some s => s != ""

/-- `str(name)` where `name` may be `None` (the f-string in the unknown-tool
message). -/
def optNameRepr : Option String → String
  | none => "None"
  | some s => s

/-- `src/tools/context.py` — `ToolExecutionContext` as the tools under `src/`
read it: the call/channel identity, the opaque session-store and ARI client
references (modelled by their presence), configuration, the originating
provider name and the user input. -/
structure ToolExecutionContext where
  call_id : String
  caller_channel_id : Option String
  bridge_id : Option String
  session_store : Bool
  ari_client : Bool
  config : Option String
  provider_name : String
  user_input : Option String

/-- The per-call transfer fields of `CallSession` (spec §3): the state the
ordering invariant of §4.3 is about. -/
structure CallSessionTransferState where
  transfer_active : Bool
  transfer_state : Option String
  transfer_target : Option String

/-- An external telephony-layer call issued by a tool. -/
inductive AriEffect where
  | continueInDialplan (channel_id : String) (dialplan_context extension priority : PyVal)

/-- How the awaited `ari_client.continue_in_dialplan` behaves: it returns a
success boolean or raises. -/
inductive AriCallOutcome where
  | returns (success : Bool)
  | raises (msg : String)

/-- `src/src/tools/telephony/exit_ari.py:90-196` — `ExitARITool.execute`:
validate the ARI client and channel id, read the dialplan target from the
parameters with tool defaults (`or`-fallback, so falsy values also default),
issue `continue_in_dialplan`, and map its boolean/exception outcome to a
status dict.  The call session's transfer state is threaded through
explicitly: the source never reads or writes it, so it is returned
unchanged. -/
def exit_ari_execute (default_context default_extension : String) (default_priority : Int)
    (parameters : PyDict) (context : ToolExecutionContext)
    (session : CallSessionTransferState) (ariOutcome : AriCallOutcome) :
    PyDict × List AriEffect × CallSessionTransferState :=
  if ¬ context.ari_client then
    ([("status", .vstr "error"),
      ("message", .vstr "Cannot exit ARI: no ARI client available"),
      ("will_exit", .vbool false)], [], session)
  else if ¬ optStrTruthy context.caller_channel_id then
    ([("status", .vstr "error"), ("message", .vstr "Cannot exit ARI: no channel ID"),
      ("will_exit", .vbool false)], [], session)
  else
    let channel := context.caller_channel_id.getD ""
    let farewell := pyGetD parameters "farewell_message" (.vstr "")
    let dpContext := pyOr (pyGetD parameters "context" .vnone) (.vstr default_context)
    let dpExtension := pyOr (pyGetD parameters "extension" .vnone) (.vstr default_extension)
    let dpPriority := pyOr (pyGetD parameters "priority" .vnone) (.vint default_priority)
    let dialplan_location := pyStr dpContext ++ "," ++ pyStr dpExtension ++ "," ++ pyStr dpPriority
    let issued : List AriEffect := [.continueInDialplan channel dpContext dpExtension dpPriority]
    match ariOutcome with
    | .returns true =>
        ([("status", .vstr "success"),
          ("message", if pyTruthy farewell then farewell
            else .vstr ("Continuing in dialplan at " ++ dialplan_location)),
          ("will_exit", .vbool true),
          ("ai_should_speak", .vbool (pyTruthy farewell)),
          ("dialplan_location", .vstr dialplan_location)], issued, session)
    | .returns false =>
        ([("status", .vstr "error"), ("message", .vstr "Failed to exit ARI"),
          ("will_exit", .vbool false)], issued, session)
    | .raises e =>
        ([("status", .vstr "error"), ("message", .vstr ("Error exiting ARI: " ++ e)),
          ("will_exit", .vbool false), ("error", .vstr e)], issued, session)

/-- A registered tool as `handle_tool_call_event` drives it: its `execute`
either returns a result dict or raises. -/
inductive ToolOutcome where
  | ok (result : PyDict)
  | raises (msg : String)

/-- A tool in the registry: `execute(parameters, context)` modelled by its
outcome. -/
structure DgTool where
  execute : PyDict → ToolExecutionContext → ToolOutcome

/-- The `function_call` object of a Deepgram tool-call event
(`{"name": ..., "arguments": {...}}`; `.get` may find either key absent). -/
structure DgFunctionCall where
  name : Option String
  arguments : PyDict

/-- A Deepgram `function_call` event in the wire shape the adapter documents:
`id` is the correlation id (`event.get('id')`, `None` when absent), and
`function_call` an optional object (`event.get('function_call', {})`). -/
structure DgEvent where
  id : PyVal
  function_call : Option DgFunctionCall

/-- `function_call.get('name')`. -/
def dgEventName (e : DgEvent) : Option String :=
  match e.function_call with
  | some f => f.name
  | none => none

/-- `function_call.get('arguments', {})`. -/
def dgEventParams (e : DgEvent) : PyDict :=
  match e.function_call with
  | some f => f.arguments
  | none => []

/-- The execution-context dict handed to the adapter (its documented required
keys: `call_id`, `session_store`, `ari_client`, plus the optional ones). -/
structure DgContext where
  call_id : String
  caller_channel_id : Option String
  bridge_id : Option String
  session_store : Bool
  ari_client : Bool
  config : Option String
  user_input : Option String

/-- `src/src/tools/adapters/deepgram.py:108-118` — the fresh
`ToolExecutionContext` built per invocation, with `provider_name="deepgram"`. -/
def buildExecContext (c : DgContext) : ToolExecutionContext :=
  ⟨c.call_id, c.caller_channel_id, c.bridge_id, c.session_store, c.ari_client,
   c.config, "deepgram", c.user_input⟩

/-- `registry.get(function_name)`: exact-name lookup; a `None` name finds
nothing. -/
def registryGet (reg : List (String × DgTool)) : Option String → Option DgTool
  | none => none
  | some n => lookupAssoc reg n

/-- `src/src/tools/adapters/deepgram.py:56-134` —
`DeepgramToolAdapter.handle_tool_call_event`: extract the correlation id and
function call, look the tool up by exact name (unknown → structured error
result), build a fresh execution context, run the tool with its raised
faults caught and converted to an error result, and stamp the correlation id
on the result. -/
def handle_tool_call_event (reg : List (String × DgTool)) (event : DgEvent)
    (ctx : DgContext) : PyDict :=
  let function_call_id := event.id
  let function_name := dgEventName event
  let parameters := dgEventParams event
  match registryGet reg function_name with
  | none =>
      [("function_call_id", function_call_id), ("status", .vstr "error"),
       ("message", .vstr ("Unknown tool: " ++ optNameRepr function_name))]
  | some tool =>
      match tool.execute parameters (buildExecContext ctx) with
      | .ok result => pySet result "function_call_id" function_call_id
      | .raises msg =>
          [("function_call_id", function_call_id), ("status", .vstr "error"),
           ("message", .vstr ("Tool execution failed: " ++ msg)),
           ("error", .vstr msg)]

/-- The raw shape of one pipeline entry before normalization (the YAML
mapping: every field may be absent). -/
structure RawPipelineEntry where
  type : Option String
  stt : Option String
  llm : Option String
  tts : Option String
  tools : Option (List String)
  options : PyDict

/-- A normalized pipeline entry. -/
structure NormalizedPipelineEntry where
  type : String
  stt_key : String
  llm_key : String
  tts_key : String
  tools : List String
  options : PyDict
  is_tts_only : Bool

/-- Modelled from the spec: the pipeline-entry normalization performed by
`normalize_pipelines` (`src/config/normalization.py`), whose implementation
is not under `src/` — only its unit tests are (`tests/test_tts_only_broadcast.py`).
Per spec §4.2 steps 4-5 and §3 (PipelineEntry), and the tests: a `tts_only`
entry must declare a non-empty `tts` key — absence is a configuration error
naming the missing component, raised at normalization time (the tests match
the message "requires a 'tts' component"); `stt`/`llm` are forced to the
sentinels `none_stt`/`none_llm` regardless of any declared values; `tts` and
`options` are preserved and `tools` defaults to the empty list; `type`
defaults to `standard`, whose entries keep their declared keys. -/
def normalize_pipeline_entry (name : String) (e : RawPipelineEntry) :
    Except String NormalizedPipelineEntry :=
  let ty := e.type.getD "standard"
  if ty = "tts_only" then
    match e.tts with
    | none => .error ("Pipeline '" ++ name ++ "' of type tts_only requires a 'tts' component")
    | some t =>
        if t = "" then
          .error ("Pipeline '" ++ name ++ "' of type tts_only requires a 'tts' component")
        else
          .ok ⟨"tts_only", "none_stt", "none_llm", t, e.tools.getD [], e.options, true⟩
  else
    .ok ⟨ty, e.stt.getD "none", e.llm.getD "none", e.tts.getD "", e.tools.getD [],
      e.options, false⟩

/- ===================== THEOREMS ===================== -/

theorem merge_dicts_nil (base : PyDict) : _merge_dicts base [] = base := by
  simp [_merge_dicts]

theorem merge_dicts_cons (base : PyDict) (k : String) (v : PyVal) (rest : PyDict) :
    _merge_dicts base ((k, v) :: rest) = _merge_dicts (_merge_step base k v) rest := by
  rw [_merge_dicts]

theorem pyLookup_pySet (k : String) (v : PyVal) (k' : String) :
    ∀ d : PyDict, pyLookup (pySet d k v) k' = if k = k' then some v else pyLookup d k'
  | [] => by
      by_cases h : k = k' <;> simp [pySet, pyLookup, h]
  | (a, b) :: tl => by
      by_cases hak : a = k
      · subst hak
        by_cases h : a = k' <;> simp [pySet, pyLookup, h]
      · by_cases hak' : a = k'
        · subst hak'
          have hk : ¬ k = a := fun h => hak h.symm
          simp [pySet, pyLookup, hak, hk]
        · simp [pySet, pyLookup, hak, hak', pyLookup_pySet k v k' tl]


theorem pyLookup_eq_none_of_not_mem (k : String) :
    ∀ d : PyDict, k ∉ d.map Prod.fst → pyLookup d k = none
  | [] => fun _ => rfl
  | (a, b) :: tl => by
      intro h
      simp only [List.map_cons, List.mem_cons] at h
      push_neg at h
      have ha : ¬ a = k := fun hh => h.1 hh.symm
      simp [pyLookup, ha, pyLookup_eq_none_of_not_mem k tl h.2]

theorem pyLookup_merge_step_ne (base : PyDict) (k : String) (v : PyVal) (k' : String)
    (h : ¬ k = k') : pyLookup (_merge_step base k v) k' = pyLookup base k' := by
  rw [_merge_step.eq_def]
  split <;> simp [pyLookup_pySet, h]

theorem pyLookup_merge_of_absent (k : String) :
    ∀ (ov base : PyDict), pyLookup ov k = none →
      pyLookup (_merge_dicts base ov) k = pyLookup base k
  | [], base => fun _ => by rw [merge_dicts_nil]
  | (a, b) :: tl, base => by
      intro h
      by_cases ha : a = k
      · subst ha
        simp [pyLookup] at h
      · have h' : pyLookup tl k = none := by simpa [pyLookup, ha] using h
        rw [merge_dicts_cons, pyLookup_merge_of_absent k tl _ h',
          pyLookup_merge_step_ne base a b k ha]

theorem keys_not_mem_of_nodup_head (a : String) (b : PyVal) (tl : PyDict)
    (h : (((a, b) :: tl).map Prod.fst).Nodup) : a ∉ tl.map Prod.fst := by
  simp only [List.map_cons, List.nodup_cons] at h
  exact h.1

theorem keys_nodup_tail (a : String) (b : PyVal) (tl : PyDict)
    (h : (((a, b) :: tl).map Prod.fst).Nodup) : (tl.map Prod.fst).Nodup := by
  simp only [List.map_cons, List.nodup_cons] at h
  exact h.2

theorem pyLookup_merge_of_none (k : String) :
    ∀ (ov base : PyDict), (ov.map Prod.fst).Nodup → pyLookup ov k = some .vnone →
      pyLookup (_merge_dicts base ov) k = pyLookup base k
  | [], base => fun _ h => by cases h
  | (a, b) :: tl, base => by
      intro hnd h
      rw [merge_dicts_cons]
      by_cases ha : a = k
      · subst ha
        have hb : b = .vnone := by simpa [pyLookup] using h
        subst hb
        have htl : pyLookup tl a = none :=
          pyLookup_eq_none_of_not_mem a tl (keys_not_mem_of_nodup_head a _ tl hnd)
        rw [pyLookup_merge_of_absent a tl _ htl]
        simp [_merge_step]
      · have h' : pyLookup tl k = some .vnone := by simpa [pyLookup, ha] using h
        rw [pyLookup_merge_of_none k tl _ (keys_nodup_tail a b tl hnd) h',
          pyLookup_merge_step_ne base a b k ha]

theorem pyLookup_merge_of_override (k : String) (v : PyVal) :
    ∀ (ov base : PyDict), (ov.map Prod.fst).Nodup → pyLookup ov k = some v →
      v ≠ .vnone → (∀ dv, v ≠ .vdict dv) →
      pyLookup (_merge_dicts base ov) k = some v
  | [], base => fun _ h => by cases h
  | (a, b) :: tl, base => by
      intro hnd h hv1 hv2
      rw [merge_dicts_cons]
      by_cases ha : a = k
      · subst ha
        have hb : b = v := by simpa [pyLookup] using h
        subst hb
        have htl : pyLookup tl a = none :=
          pyLookup_eq_none_of_not_mem a tl (keys_not_mem_of_nodup_head a _ tl hnd)
        rw [pyLookup_merge_of_absent a tl _ htl]
        rw [_merge_step.eq_def]
        split
        · exact absurd rfl (hv2 _)
        · exact absurd rfl hv1
        · simp [pyLookup_pySet]
      · have h' : pyLookup tl k = some v := by simpa [pyLookup, ha] using h
        rw [pyLookup_merge_of_override k v tl _ (keys_nodup_tail a b tl hnd) h' hv1 hv2]

theorem pyLookup_merge_of_nested (k : String) (db dov : PyDict) :
    ∀ (ov base : PyDict), (ov.map Prod.fst).Nodup →
      pyLookup base k = some (.vdict db) → pyLookup ov k = some (.vdict dov) →
      pyLookup (_merge_dicts base ov) k = some (.vdict (_merge_dicts db dov))
  | [], base => fun _ _ h => by cases h
  | (a, b) :: tl, base => by
      intro hnd hb h
      rw [merge_dicts_cons]
      by_cases ha : a = k
      · subst ha
        have hbv : b = .vdict dov := by simpa [pyLookup] using h
        subst hbv
        have htl : pyLookup tl a = none :=
          pyLookup_eq_none_of_not_mem a tl (keys_not_mem_of_nodup_head a _ tl hnd)
        rw [pyLookup_merge_of_absent a tl _ htl]
        rw [_merge_step.eq_def, hb]
        simp [pyLookup_pySet]
      · have h' : pyLookup tl k = some (.vdict dov) := by simpa [pyLookup, ha] using h
        have hb' : pyLookup (_merge_step base a b) k = some (.vdict db) := by
          rw [pyLookup_merge_step_ne base a b k ha, hb]
        exact pyLookup_merge_of_nested k db dov tl _ (keys_nodup_tail a b tl hnd) hb' h'

theorem u32dec_pack (m : Nat) (hm : m < 4294967296) :
    u32dec [m % 256, m / 256 % 256, m / 65536 % 256, m / 16777216 % 256] = m := by
  simp only [u32dec]
  omega

/-- C6 (amended): wrapping a PCM16-LE byte sequence of even length (whole
16-bit samples) with `_pcm16le_to_wav` and decoding with `_wav_to_pcm16le`
returns exactly the original bytes and the original sample rate, for every
rate `1 ≤ rate` whose packed 32-bit header fields do not overflow
(`2*rate < 2^32`, `36 + length < 2^32`).  The claim's unrestricted
quantification over all byte sequences and rates fails (odd lengths lose the
trailing byte, see the counterexample; rate `0` makes the encoder raise
`wave.Error`). -/
theorem wav_roundtrip_even (pcm : List Nat) (rate : Nat) (h2 : pcm.length % 2 = 0)
    (hr1 : 1 ≤ rate) (hr2 : 2 * rate < 4294967296) (hlen : 36 + pcm.length < 4294967296) :
    (_pcm16le_to_wav pcm rate).bind _wav_to_pcm16le = .ok (pcm, rate) := by
  have h0 : ¬ rate = 0 := by omega
  have hno2 : ¬ 4294967296 ≤ 2 * rate := by omega
  have hno3 : ¬ 4294967296 ≤ 36 + pcm.length := by omega
  rw [_pcm16le_to_wav]
  simp only [h0, if_false, hno2, hno3]
  rw [Except.bind]
  simp only [asciiRIFF, asciiWAVE, asciiFmtId, asciiDataId, u32le, u16le,
    List.cons_append, List.nil_append]
  rw [_wav_to_pcm16le]
  have h4 : ¬ (36 + pcm.length < 4) := by omega
  simp only [asciiRIFF, asciiWAVE, u32dec_pack (36 + pcm.length) hlen, h4, ne_eq,
    not_true_eq_false, if_false, not_false_eq_true, ite_false, ite_true]
  rw [List.take_of_length_le (by simp; omega)]
  norm_num
  rw [parseWavChunks]
  have hrlt : rate < 4294967296 := by omega
  simp only [asciiFmtId, asciiDataId, show u32dec [16, 0, 0, 0] = 16 by norm_num [u32dec],
    show u16dec [1, 0] = 1 by norm_num [u16dec], show u16dec [16, 0] = 16 by norm_num [u16dec],
    List.take_succ_cons, List.take_zero, List.drop_succ_cons, List.drop_zero, ite_true, ite_false]
  norm_num
  rw [u32dec_pack rate hrlt]
  rw [parseWavChunks]
  simp only [asciiFmtId, asciiDataId, u32dec_pack pcm.length (by omega : pcm.length < 4294967296)]
  norm_num
  have hdiv : pcm.length / 2 * 2 = pcm.length := by omega
  simp [List.take_length, hdiv]

/-- C6 witness: the round-trip theorem applied at the concrete two-byte
sample `[0, 0]` at 8000 Hz. -/
theorem wav_roundtrip_even_witness :
    ([0, 0] : List Nat).length % 2 = 0 ∧
      (_pcm16le_to_wav [0, 0] 8000).bind _wav_to_pcm16le = .ok ([0, 0], 8000) :=
  ⟨by norm_num, wav_roundtrip_even [0, 0] 8000 (by norm_num) (by norm_num) (by norm_num)
    (by norm_num)⟩

/-- C6 counterexample: the round-trip is not the identity on every byte
sequence.  The one-byte input `[0]` at 8000 Hz encodes fine but decodes to
`([], 8000)` — the `wave` reader returns only whole 2-byte frames, so the
trailing byte is silently dropped. -/
theorem wav_roundtrip_odd_cex :
    (_pcm16le_to_wav [0] 8000).bind _wav_to_pcm16le = .ok ([], 8000) ∧
      (Except.ok (([] : List Nat), 8000) : Except String (List Nat × Nat)) ≠
        Except.ok ([0], 8000) := by
  constructor
  · rw [_pcm16le_to_wav]
    norm_num [u32le, u16le, asciiRIFF, asciiWAVE, asciiFmtId, asciiDataId, Except.bind]
    rw [_wav_to_pcm16le]
    norm_num [u32dec, asciiRIFF, asciiWAVE]
    rw [parseWavChunks]
    norm_num [u32dec, u16dec, asciiFmtId, asciiDataId]
    rw [parseWavChunks]
    norm_num [u32dec, u16dec, asciiFmtId, asciiDataId]
  · simp

theorem format_info_encodings (k enc : String) (b : Bool)
    (h : lookupAssoc _AZURE_FORMAT_INFO k = some (enc, b)) :
    enc = "mulaw" ∨ enc = "alaw" ∨ enc = "pcm16" := by
  simp only [_AZURE_FORMAT_INFO, lookupAssoc] at h
  split_ifs at h <;> simp_all

/-- C7 (amended): for every response byte sequence and every non-empty output
format whose lowercased value is not a key of `_AZURE_FORMAT_INFO`, the TTS
decode path first attempts a generic WAV container decode and, if that fails,
returns the original bytes unchanged tagged with the sentinel encoding
"unknown" instead of raising; and `_decode_tts_audio` raises only when the
(possibly defaulted) format resolves to a RIFF-wrapped table entry whose
bytes fail WAV parsing.  The claim's unrestricted quantification over "not a
recognized format key" fails only for the empty format string, which the code
first replaces by the recognized default riff key (see the counterexample). -/
theorem decode_unknown_format_fallback :
    (∀ (raw : List Nat) (fmt : String), fmt ≠ "" →
      lookupAssoc _AZURE_FORMAT_INFO (pyLower fmt) = none →
      _decode_tts_audio raw fmt =
        (match _wav_to_pcm16le raw with
         | .ok (pcm, rate) => .ok (pcm, rate, "pcm16")
         | .error _ => .ok (raw, 8000, "unknown"))) ∧
    (∀ (raw : List Nat) (fmt e : String),
      _decode_tts_audio raw fmt = .error e →
      lookupAssoc _AZURE_FORMAT_INFO
          (pyLower (if fmt = "" then "riff-8khz-16bit-mono-pcm" else fmt)) =
        some ("pcm16", true) ∧ exceptOk (_wav_to_pcm16le raw) = false) := by
  constructor
  · intro raw fmt hne hlook
    rw [_decode_tts_audio]
    simp only [hne, if_false, hlook]
  · intro raw fmt e herr
    rw [_decode_tts_audio] at herr
    rcases hlook : lookupAssoc _AZURE_FORMAT_INFO
        (pyLower (if fmt = "" then "riff-8khz-16bit-mono-pcm" else fmt)) with _ | ⟨enc, riff⟩
    · rw [hlook] at herr
      rcases hwav : _wav_to_pcm16le raw with pr | er <;> rw [hwav] at herr <;> cases herr
    · rw [hlook] at herr
      by_cases hmu : enc = "mulaw"
      · simp only [hmu, if_true, ite_true] at herr; cases herr
      · by_cases hal : enc = "alaw"
        · simp only [hmu, hal, if_false, if_true, ite_true, ite_false] at herr; cases herr
        · rcases hriff : riff with _ | _
          · subst hriff
            simp only [hmu, hal, if_false, ite_false, Bool.false_eq_true] at herr
            cases herr
          · subst hriff
            simp only [hmu, hal, if_false, ite_false, if_true, ite_true] at herr
            rcases hwav : _wav_to_pcm16le raw with er | pr
            · refine ⟨?_, rfl⟩
              rcases format_info_encodings _ enc true hlook with h | h | h
              · exact absurd h hmu
              · exact absurd h hal
              · rw [h]
            · rw [hwav] at herr; cases herr

/-- C7 witness: the fallback theorem applied at a junk byte and the (lower
case, unrecognized) MP3 format key: the call degrades to the original bytes
tagged "unknown" instead of raising. -/
theorem decode_unknown_format_fallback_witness :
    _decode_tts_audio [1] "audio-16khz-128kbitrate-mono-mp3" = .ok ([1], 8000, "unknown") :=
  (decode_unknown_format_fallback.1 [1] "audio-16khz-128kbitrate-mono-mp3"
    (by decide) (by decide)).trans (by rfl)

/-- C7 counterexample: the empty string is not a recognized format key, yet
`_decode_tts_audio` on one junk byte with the empty format raises instead of
returning `([120], 8000, "unknown")`: the source substitutes the recognized
default `riff-8khz-16bit-mono-pcm` for a falsy format before the lookup, and
a recognized riff key whose bytes fail WAV parsing raises. -/
theorem decode_empty_format_cex :
    exceptOk (_decode_tts_audio [120] "") = false ∧
      lookupAssoc _AZURE_FORMAT_INFO "" = none := by
  exact ⟨by decide, rfl⟩

theorem chunkGo_spec (f : Nat) :
    ∀ l : List Nat,
      (chunkGo (f + 1) l).flatten = l ∧
      (∀ c ∈ chunkGo (f + 1) l, c ≠ [] ∧ c.length ≤ f + 1) ∧
      (∀ i, i + 1 < (chunkGo (f + 1) l).length →
        ((chunkGo (f + 1) l).getD i []).length = f + 1)
  | [] => by simp [chunkGo]
  | c :: cs => by
      have IH := chunkGo_spec f ((c :: cs).drop (f + 1))
      rw [chunkGo]
      refine ⟨?_, ?_, ?_⟩
      · simp only [List.flatten_cons, IH.1, List.take_append_drop]
      · intro c' hc'
        rcases List.mem_cons.mp hc' with h | h
        · subst h
          constructor
          · simp [List.take_succ_cons]
          · simp only [List.length_take]
            omega
        · exact IH.2.1 c' h
      · intro i hi
        cases i with
        | zero =>
            simp only [List.length_cons] at hi
            have hne : chunkGo (f + 1) ((c :: cs).drop (f + 1)) ≠ [] := by
              intro hnil
              rw [hnil] at hi
              simp at hi
            have hrest : (c :: cs).drop (f + 1) ≠ [] := by
              intro hnil
              rw [hnil] at hne
              exact hne (by simp [chunkGo])
            have hlen : f + 1 < (c :: cs).length := by
              by_contra hle
              exact hrest (List.drop_eq_nil_of_le (by omega))
            rw [List.getD_cons_zero]
            simp only [List.length_take]
            omega
        | succ i =>
            simp only [List.length_cons] at hi
            have := IH.2.2 i (by omega)
            simpa [List.getD_cons_succ] using this
termination_by l => l.length
decreasing_by all_goals (simp [List.length_drop]; omega)

/-- C9 (amended): for every byte sequence, encoding string, sample rate and
chunk duration for which the frame-size computation does not overflow,
`_chunk_audio` yields a finite sequence of non-empty chunks, in order, whose
concatenation equals the input exactly; every chunk except possibly the last
has exactly `max(bytes_per_sample, fs)` bytes where `fs` is
`int(sample_rate * (chunk_ms / 1000.0) * bytes_per_sample)` computed, as the
source computes it, in binary64 float arithmetic — which at some inputs is
one less than the exact integer expression the claim states (see the
counterexample); the frame size is never zero (at least one sample), so the
iteration terminates even when `chunk_ms` or `sample_rate` is 0; and empty
input yields no chunks. -/
theorem chunk_audio_partition (audioBytes : List Nat) (encoding : String)
    (sample_rate chunk_ms : Nat) (f : Nat)
    (hf : _chunk_frame_size encoding sample_rate chunk_ms = .ok f) :
    1 ≤ f ∧
    ∃ chunks, _chunk_audio audioBytes encoding sample_rate chunk_ms = .ok chunks ∧
      chunks.flatten = audioBytes ∧
      (∀ c ∈ chunks, c ≠ [] ∧ c.length ≤ f) ∧
      (∀ i, i + 1 < chunks.length → (chunks.getD i []).length = f) ∧
      (audioBytes = [] → chunks = []) := by
  have hbps : 1 ≤ _bytes_per_sample encoding := by
    rw [_bytes_per_sample]
    by_cases h : pyLower encoding = "ulaw" ∨ pyLower encoding = "mulaw" ∨
        pyLower encoding = "mu-law" ∨ pyLower encoding = "alaw"
    · rw [if_pos h]
    · rw [if_neg h]
      norm_num
  have h1 : 1 ≤ f := by
    simp only [_chunk_frame_size] at hf
    rcases hft : _chunk_float_frame sample_rate chunk_ms (_bytes_per_sample encoding)
        with e | v
    · rw [hft] at hf
      cases hf
    · rw [hft] at hf
      injection hf with hf2
      have hle := Nat.le_max_left (_bytes_per_sample encoding) v
      omega
  obtain ⟨g, hg⟩ : ∃ g, f = g + 1 := ⟨f - 1, by omega⟩
  refine ⟨h1, ?_⟩
  by_cases he : audioBytes = []
  · subst he
    exact ⟨[], by simp [_chunk_audio], rfl, by simp, by simp, fun _ => rfl⟩
  · have hgo := chunkGo_spec g audioBytes
    rw [← hg] at hgo
    refine ⟨chunkGo f audioBytes, ?_, hgo.1, hgo.2.1, hgo.2.2, fun h => absurd h he⟩
    rw [_chunk_audio, if_neg he, hf]

set_option maxRecDepth 40000 in
/-- C9 witness: the partition theorem applied at five bytes of mu-law audio
with `chunk_ms = 0` (the float product is exactly 0, the frame size
degenerates to one byte per chunk, and the loop still terminates). -/
theorem chunk_audio_partition_witness :
    _chunk_frame_size "ulaw" 8000 0 = .ok 1 ∧
      ∃ chunks, _chunk_audio [1, 2, 3, 4, 5] "ulaw" 8000 0 = .ok chunks ∧
        chunks.flatten = [1, 2, 3, 4, 5] := by
  have hf : _chunk_frame_size "ulaw" 8000 0 = .ok 1 := by decide
  obtain ⟨h1, chunks, hc, hflat, -, -, -⟩ :=
    chunk_audio_partition [1, 2, 3, 4, 5] "ulaw" 8000 0 1 hf
  exact ⟨hf, chunks, hc, hflat⟩

set_option maxRecDepth 40000 in
/-- C9 counterexample: the chunk size is not the exact integer value
`max(bytes_per_sample, int(sample_rate * chunk_ms / 1000 * bytes_per_sample))`
the claim states.  At `sample_rate = 100`, `chunk_ms = 290`, pcm16 the exact
expression gives 58, but the source's float computation rounds
`100 * (290 / 1000.0)` to `28.999999999999996`, so the program slices
57-byte chunks: 58 bytes of input become a 57-byte chunk and a 1-byte
chunk. -/
theorem chunk_audio_float_cex :
    _chunk_frame_size "pcm16" 100 290 = .ok 57 ∧
      max (_bytes_per_sample "pcm16") (100 * 290 * _bytes_per_sample "pcm16" / 1000) = 58 ∧
      (57 : Nat) ≠ 58 := by
  refine ⟨by decide, by decide, by decide⟩

theorem mem_pyReplaceChar (c : Char) (rep : List Char) (x : Char) :
    ∀ l : List Char, x ∈ pyReplaceChar c rep l → x ∈ rep ∨ (x ∈ l ∧ x ≠ c)
  | [] => fun hx => by cases hx
  | y :: ys => by
      intro hx
      rw [pyReplaceChar] at hx
      by_cases hy : y = c
      · rw [if_pos hy] at hx
        rcases List.mem_append.mp hx with h | h
        · exact Or.inl h
        · rcases mem_pyReplaceChar c rep x ys h with h' | ⟨h1, h2⟩
          · exact Or.inl h'
          · exact Or.inr ⟨List.mem_cons_of_mem _ h1, h2⟩
      · rw [if_neg hy] at hx
        rcases List.mem_cons.mp hx with h | h
        · subst h
          exact Or.inr ⟨List.mem_cons_self _ _, hy⟩
        · rcases mem_pyReplaceChar c rep x ys h with h' | ⟨h1, h2⟩
          · exact Or.inl h'
          · exact Or.inr ⟨List.mem_cons_of_mem _ h1, h2⟩

theorem escape_ssml_safe (t : List Char) (x : Char) (hx : x ∈ _escape_ssml_text t) :
    x ≠ '<' ∧ x ≠ '>' ∧ x ≠ '"' ∧ x ≠ '\'' := by
  rw [_escape_ssml_text] at hx
  rcases mem_pyReplaceChar _ _ _ _ hx with h | ⟨hx4, hne5⟩
  · rw [show ("&apos;".data) = ['&', 'a', 'p', 'o', 's', ';'] from rfl] at h
    fin_cases h <;> exact ⟨by decide, by decide, by decide, by decide⟩
  · rcases mem_pyReplaceChar _ _ _ _ hx4 with h | ⟨hx3, hne4⟩
    · rw [show ("&quot;".data) = ['&', 'q', 'u', 'o', 't', ';'] from rfl] at h
      fin_cases h <;> exact ⟨by decide, by decide, by decide, by decide⟩
    · rcases mem_pyReplaceChar _ _ _ _ hx3 with h | ⟨hx2, hne3⟩
      · rw [show ("&gt;".data) = ['&', 'g', 't', ';'] from rfl] at h
        fin_cases h <;> exact ⟨by decide, by decide, by decide, by decide⟩
      · rcases mem_pyReplaceChar _ _ _ _ hx2 with h | ⟨_, hne2⟩
        · rw [show ("&lt;".data) = ['&', 'l', 't', ';'] from rfl] at h
          fin_cases h <;> exact ⟨by decide, by decide, by decide, by decide⟩
        · exact ⟨hne2, hne3, hne4, hne5⟩

theorem splitOnChar_ne_nil (c : Char) (l : List Char) : splitOnChar c l ≠ [] := by
  cases l with
  | nil => simp [splitOnChar]
  | cons y ys =>
      rw [splitOnChar]
      by_cases hy : y = c
      · simp [hy]
      · simp only [hy, if_false, ite_false]
        rcases h : splitOnChar c ys with _ | ⟨a, b⟩ <;> simp

theorem mem_splitOnChar (c : Char) (x : Char) :
    ∀ (l : List Char) (part : List Char), part ∈ splitOnChar c l → x ∈ part → x ∈ l
  | [] => by
      intro part hp hx
      simp [splitOnChar] at hp
      subst hp
      cases hx
  | y :: ys => by
      intro part hp hx
      rw [splitOnChar] at hp
      by_cases hy : y = c
      · rw [if_pos hy] at hp
        rcases List.mem_cons.mp hp with h | h
        · subst h; cases hx
        · exact List.mem_cons_of_mem _ (mem_splitOnChar c x ys part h hx)
      · rw [if_neg hy] at hp
        rcases hr : splitOnChar c ys with _ | ⟨a, b⟩
        · exact absurd hr (splitOnChar_ne_nil c ys)
        · rw [hr] at hp
          rcases List.mem_cons.mp hp with h | h
          · subst h
            rcases List.mem_cons.mp hx with h' | h'
            · subst h'; exact List.mem_cons_self _ _
            · have : a ∈ splitOnChar c ys := by rw [hr]; exact List.mem_cons_self _ _
              exact List.mem_cons_of_mem _ (mem_splitOnChar c x ys a this h')
          · have : part ∈ splitOnChar c ys := by rw [hr]; exact List.mem_cons_of_mem _ h
            exact List.mem_cons_of_mem _ (mem_splitOnChar c x ys part this hx)

theorem mem_joinWithChar (c : Char) (x : Char) :
    ∀ parts : List (List Char), x ∈ joinWithChar c parts → x = c ∨ ∃ p ∈ parts, x ∈ p
  | [] => fun hx => by cases hx
  | [p] => fun hx => by
      rw [joinWithChar] at hx
      exact Or.inr ⟨p, List.mem_cons_self _ _, hx⟩
  | p :: q :: t => fun hx => by
      rw [joinWithChar] at hx
      rcases List.mem_append.mp hx with h | h
      · exact Or.inr ⟨p, List.mem_cons_self _ _, h⟩
      · rcases List.mem_cons.mp h with h' | h'
        · exact Or.inl h'
        · rcases mem_joinWithChar c x (q :: t) h' with h'' | ⟨pp, hpp, hxp⟩
          · exact Or.inl h''
          · exact Or.inr ⟨pp, List.mem_cons_of_mem _ hpp, hxp⟩

theorem mem_ssml_lang (language voice_name : String) (x : Char)
    (hx : x ∈ (_ssml_lang language voice_name).data) :
    x ∈ language.data ∨ x ∈ voice_name.data ∨ x = '-' ∨ x ∈ ("en-US".data) := by
  rw [_ssml_lang] at hx
  by_cases hc : containsL ['-'] voice_name.data
  · rw [if_pos hc] at hx
    by_cases hl : language ≠ ""
    · rw [if_pos hl] at hx
      exact Or.inl hx
    · rw [if_neg hl] at hx
      rcases mem_joinWithChar '-' x _ hx with h | ⟨p, hp, hxp⟩
      · exact Or.inr (Or.inr (Or.inl h))
      · have hp' : p ∈ splitOnChar '-' voice_name.data := List.take_subset 2 _ hp
        exact Or.inr (Or.inl (mem_splitOnChar '-' x _ p hp' hxp))
  · rw [if_neg hc] at hx
    exact Or.inr (Or.inr (Or.inr hx))

theorem ssml_lang_safe (language voice_name : String)
    (hlang : ∀ c ∈ language.data, c ≠ '<' ∧ c ≠ '>')
    (hv : ∀ c ∈ voice_name.data, c ≠ '<' ∧ c ≠ '>') :
    ∀ c ∈ (_ssml_lang language voice_name).data, c ≠ '<' ∧ c ≠ '>' := by
  intro c hc
  rcases mem_ssml_lang language voice_name c hc with h | h | h | h
  · exact hlang c h
  · exact hv c h
  · subst h
    exact ⟨by decide, by decide⟩
  · rw [show ("en-US".data) = ['e', 'n', '-', 'U', 'S'] from rfl] at h
    fin_cases h <;> exact ⟨by decide, by decide⟩

theorem build_ssml_data (text voice_name language : String) :
    (_build_ssml text voice_name language).data =
      "<speak version='1.0' xml:lang='".data ++ (_ssml_lang language voice_name).data ++
      "'><voice name='".data ++ voice_name.data ++ "'>".data ++
      _escape_ssml_text text.data ++ "</voice></speak>".data := by
  simp [_build_ssml, String.data_append]

theorem build_ssml_counts (text voice_name language : String)
    (hv : ∀ c ∈ voice_name.data, c ≠ '<' ∧ c ≠ '>')
    (hlang : ∀ c ∈ language.data, c ≠ '<' ∧ c ≠ '>') :
    (_build_ssml text voice_name language).data.count '<' = 4 ∧
      (_build_ssml text voice_name language).data.count '>' = 4 := by
  have hl := ssml_lang_safe language voice_name hlang hv
  have hesc := escape_ssml_safe text.data
  rw [build_ssml_data]
  have hlz1 : ((_ssml_lang language voice_name).data).count '<' = 0 :=
    List.count_eq_zero.mpr (fun h => (hl '<' h).1 rfl)
  have hlz2 : ((_ssml_lang language voice_name).data).count '>' = 0 :=
    List.count_eq_zero.mpr (fun h => (hl '>' h).2 rfl)
  have hvz1 : (voice_name.data).count '<' = 0 :=
    List.count_eq_zero.mpr (fun h => (hv '<' h).1 rfl)
  have hvz2 : (voice_name.data).count '>' = 0 :=
    List.count_eq_zero.mpr (fun h => (hv '>' h).2 rfl)
  have hez1 : (_escape_ssml_text text.data).count '<' = 0 :=
    List.count_eq_zero.mpr (fun h => (hesc '<' h).1 rfl)
  have hez2 : (_escape_ssml_text text.data).count '>' = 0 :=
    List.count_eq_zero.mpr (fun h => (hesc '>' h).2.1 rfl)
  have t1a : ("<speak version='1.0' xml:lang='".data).count '<' = 1 := by decide
  have t1b : ("<speak version='1.0' xml:lang='".data).count '>' = 0 := by decide
  have t2a : ("'><voice name='".data).count '<' = 1 := by decide
  have t2b : ("'><voice name='".data).count '>' = 1 := by decide
  have t3a : ("'>".data).count '<' = 0 := by decide
  have t3b : ("'>".data).count '>' = 1 := by decide
  have t4a : ("</voice></speak>".data).count '<' = 2 := by decide
  have t4b : ("</voice></speak>".data).count '>' = 2 := by decide
  constructor
  · simp only [List.count_append, t1a, t2a, t3a, t4a, hlz1, hvz1, hez1]
  · simp only [List.count_append, t1b, t2b, t3b, t4b, hlz2, hvz2, hez2]

/-- C10: `_build_ssml` escapes all five XML special characters of the input
text before embedding it (`&` first, so entities are not double-escaped): no
character of the escaped text is a raw `<`, `>`, `"` or `\'`.  The produced
document is exactly one `speak` element containing one `voice` element whose
text content is the escaped input: its bytes are the fixed template around
the escaped text, and for markup-free voice/language configuration values it
contains exactly four `<` and four `>` (the four fixed tags), so no input
text can inject additional markup.  Additionally, a voice name containing no
hyphen forces `xml:lang` to `"en-US"` even when a non-empty language was
supplied. -/
theorem build_ssml_spec :
    (∀ (text : String) (x : Char), x ∈ _escape_ssml_text text.data →
      x ≠ '<' ∧ x ≠ '>' ∧ x ≠ '"' ∧ x ≠ '\'') ∧
    (∀ text voice_name language : String,
      (_build_ssml text voice_name language).data =
        "<speak version='1.0' xml:lang='".data ++ (_ssml_lang language voice_name).data ++
        "'><voice name='".data ++ voice_name.data ++ "'>".data ++
        _escape_ssml_text text.data ++ "</voice></speak>".data) ∧
    (∀ text voice_name language : String,
      (∀ c ∈ voice_name.data, c ≠ '<' ∧ c ≠ '>') →
      (∀ c ∈ language.data, c ≠ '<' ∧ c ≠ '>') →
      (_build_ssml text voice_name language).data.count '<' = 4 ∧
        (_build_ssml text voice_name language).data.count '>' = 4) ∧
    (∀ voice_name language : String, ¬ containsL ['-'] voice_name.data →
      _ssml_lang language voice_name = "en-US") :=
  ⟨fun text x hx => escape_ssml_safe text.data x hx,
   build_ssml_data,
   build_ssml_counts,
   fun _ _ h => by rw [_ssml_lang, if_neg h]⟩

/-- C10 witness: the SSML theorem applied at a text containing all five
special characters with a hyphenated voice name, and at a hyphen-free voice
name with a non-empty language (which still yields `en-US`). -/
theorem build_ssml_spec_witness :
    (_build_ssml "a<b&c>'d\"" "en-US-JennyNeural" "").data.count '<' = 4 ∧
      _ssml_lang "es-ES" "Jenny" = "en-US" :=
  ⟨(build_ssml_spec.2.2.1 "a<b&c>'d\"" "en-US-JennyNeural" "" (by decide) (by decide)).1,
   build_ssml_spec.2.2.2 "Jenny" "es-ES" (by decide)⟩

/-- C4: for every call id, sample rate and options, `transcribe` on empty
audio bytes returns the empty string with an empty effect trace (no session
touched, no request built), for both STT adapters; and `synthesize` on empty
text yields the empty chunk sequence with an empty effect trace. -/
theorem empty_input_short_circuit :
    (∀ (provider : AzureSTTProviderConfig) (pipe : PyDict) (call_id : String)
        (rate : Nat) (options : PyDict) (resp : HttpResponse),
      fast_transcribe provider pipe call_id [] rate options resp = ([], .ok "")) ∧
    (∀ (provider : AzureSTTProviderConfig) (pipe : PyDict) (call_id : String)
        (rate : Nat) (options : PyDict) (resp : HttpResponse),
      realtime_transcribe provider pipe call_id [] rate options resp = ([], .ok "")) ∧
    (∀ (provider : AzureTTSProviderConfig) (pipe : PyDict) (call_id : String)
        (options : PyDict) (resp : TtsHttpResponse)
        (resample : List Nat → Nat → Nat → List Nat)
        (convert : List Nat → String → List Nat),
      tts_synthesize provider pipe call_id "" options resp resample convert = ([], .ok [])) :=
  ⟨fun _ _ _ _ _ _ => by rw [fast_transcribe]; simp,
   fun _ _ _ _ _ _ => by rw [realtime_transcribe]; simp,
   fun _ _ _ _ _ _ _ => by rw [tts_synthesize]; simp⟩

/-- C5 (amended): for every non-empty audio input that reaches the provider
(an api key is configured and the WAV wrap succeeds), a response with status
`>= 400` makes `transcribe` raise an error carrying the response status and
the body truncated to 256 characters — for both the fast and the real-time
adapter.  The claim's "non-2xx" is wider than the code's check: a 3xx final
status is not treated as failure (see the counterexample). -/
theorem stt_http_error_propagation (provider : AzureSTTProviderConfig)
    (call_id : String) (audio_pcm16 : List Nat) (rate : Nat) (resp : HttpResponse)
    (hne : audio_pcm16 ≠ []) (hkey : provider.api_key ≠ "")
    (hr1 : 1 ≤ rate) (hr2 : 2 * rate < 4294967296)
    (hlen : 36 + audio_pcm16.length < 4294967296)
    (hst : 400 ≤ resp.status) :
    (fast_transcribe provider [] call_id audio_pcm16 rate [] resp).2 =
      .error ("Azure STT Fast request failed (status " ++ toString resp.status ++ "): " ++
        strTake 256 resp.bodyText) ∧
    (realtime_transcribe provider [] call_id audio_pcm16 rate [] resp).2 =
      .error ("Azure STT Realtime request failed (status " ++ toString resp.status ++ "): " ++
        strTake 256 resp.bodyText) := by
  have hwav : ∃ w, _pcm16le_to_wav audio_pcm16 rate = .ok w := by
    rw [_pcm16le_to_wav]
    simp only [show ¬ rate = 0 by omega, show ¬ 4294967296 ≤ 2 * rate by omega,
      show ¬ 4294967296 ≤ 36 + audio_pcm16.length by omega, if_false]
    exact ⟨_, rfl⟩
  obtain ⟨w, hw⟩ := hwav
  have hkeyT : pyTruthy (pyOr (.vstr provider.api_key) (.vstr "")) = true := by
    simp [pyOr, pyTruthy, hkey]
  constructor
  · rw [fast_transcribe]
    simp only [hne, if_false, fast_compose_options, pyFloat, pyGetD, pyLookup]
    simp only [hw, hkeyT, not_true_eq_false, if_false, ite_false, ite_true]
    simp [hst]
  · rw [realtime_transcribe]
    simp only [hne, if_false, realtime_compose_options, pyFloat, pyGetD, pyLookup]
    simp only [hw, hkeyT, not_true_eq_false, if_false, ite_false, ite_true]
    simp [hst]

/-- C5 witness: the propagation theorem applied at 100 ms of silence, a
configured key, and a concrete 403 response. -/
theorem stt_http_error_propagation_witness :
    (fast_transcribe ⟨"key", "eastus", "en-US", "", "", 30⟩ [] "call-1" [0, 0] 8000 []
        ⟨403, "Forbidden", none⟩).2 =
      .error ("Azure STT Fast request failed (status " ++ toString 403 ++ "): " ++
        strTake 256 "Forbidden") :=
  (stt_http_error_propagation ⟨"key", "eastus", "en-US", "", "", 30⟩ "call-1" [0, 0] 8000
    ⟨403, "Forbidden", none⟩ (by decide) (by decide) (by norm_num) (by norm_num)
    (by norm_num) (by norm_num)).1

/-- C5 counterexample: a 300 response is non-2xx, but `transcribe` does not
raise: the code checks `status >= 400`, so the body is parsed as a transcript
("hello") instead of propagating a failure. -/
theorem stt_non2xx_not_raised_cex :
    (fast_transcribe ⟨"key", "eastus", "en-US", "", "", 30⟩ [] "call-1" [0, 0] 8000 []
        ⟨300, "hello", none⟩).2 = .ok "hello" := rfl

/-- C3 (amended): the recursive dictionary merge `_merge_dicts`, folded in
precedence order lowest to highest, satisfies every clause of the claim: the
worked example merges to exactly `{a:1, b:{x:9, y:2}}`; an absent key never
overrides; a key present with `None` never overrides; a concrete non-dict
value at a higher level overrides; and a nested dict overrides key-by-key
(only that key, not the whole sub-mapping).  The claim fails, however, for
the option merge the adapters actually apply to the (provider, pipeline,
runtime) triple — `_compose_options` — which is a flat per-key lookup where a
key explicitly present with `None` at a higher level does override a concrete
lower value (see the counterexample). -/
theorem option_merge_spec :
    (mergeThree [("a", .vint 1), ("b", .vdict [("x", .vint 1)])]
        [("b", .vdict [("y", .vint 2)])] [("b", .vdict [("x", .vint 9)])] =
      [("a", .vint 1), ("b", .vdict [("x", .vint 9), ("y", .vint 2)])]) ∧
    (∀ (base ov : PyDict) (k : String), pyLookup ov k = none →
      pyLookup (_merge_dicts base ov) k = pyLookup base k) ∧
    (∀ (base ov : PyDict) (k : String), (ov.map Prod.fst).Nodup →
      pyLookup ov k = some .vnone →
      pyLookup (_merge_dicts base ov) k = pyLookup base k) ∧
    (∀ (base ov : PyDict) (k : String) (v : PyVal), (ov.map Prod.fst).Nodup →
      pyLookup ov k = some v → v ≠ .vnone → (∀ dv, v ≠ .vdict dv) →
      pyLookup (_merge_dicts base ov) k = some v) ∧
    (∀ (base ov : PyDict) (k : String) (db dov : PyDict), (ov.map Prod.fst).Nodup →
      pyLookup base k = some (.vdict db) → pyLookup ov k = some (.vdict dov) →
      pyLookup (_merge_dicts base ov) k = some (.vdict (_merge_dicts db dov))) :=
  ⟨by simp [mergeThree, merge_dicts_cons, merge_dicts_nil, _merge_step, pySet, pyLookup],
   fun base ov k h => pyLookup_merge_of_absent k ov base h,
   fun base ov k hnd h => pyLookup_merge_of_none k ov base hnd h,
   fun base ov k v hnd h h1 h2 => pyLookup_merge_of_override k v ov base hnd h h1 h2,
   fun base ov k db dov hnd hb h => pyLookup_merge_of_nested k db dov ov base hnd hb h⟩

/-- C3 witness: the merge theorem applied at concrete dicts — a `None` in
the override leaves the concrete base value in place. -/
theorem option_merge_spec_witness :
    pyLookup (_merge_dicts [("a", .vint 1)] [("a", .vnone)]) "a" =
      pyLookup [("a", .vint 1)] "a" :=
  option_merge_spec.2.2.1 [("a", .vint 1)] [("a", .vnone)] "a" (by simp) rfl

/-- C3 counterexample: the per-adapter `_compose_options` violates the
"a None value never overrides a concrete value from a lower level" clause:
with the pipeline declaring `language = "es-ES"` and the caller passing
`language = None`, the composed options carry `language = None`. -/
theorem compose_options_none_overrides_cex :
    fast_compose_options ⟨"key", "eastus", "en-US", "", "", 30⟩
        [("language", .vstr "es-ES")] [("language", .vnone)] =
      .ok [("api_key", .vstr "key"), ("region", .vstr "eastus"),
           ("fast_stt_base_url", .vstr ""), ("language", .vnone),
           ("request_timeout_sec", .vint 30)] ∧
      PyVal.vnone ≠ PyVal.vstr "es-ES" :=
  ⟨rfl, fun h => PyVal.noConfusion h⟩

/-- C1: the code violates the claimed ordering invariant.  `exit_ari`'s
`execute` — the transfer/continue-in-dialplan action — never touches the
session's transfer fields: invoked for an active call whose `transfer_active`
is unset, with a valid ARI client and channel id and a successful
`continue_in_dialplan`, it issues the external dialplan-continuation call and
reports success while `transfer_active` is still `false` before, during and
after the call (the session state comes back unchanged), so the step relation
does reach a state where `continue_in_dialplan` has been issued with the flag
unset.  The spec (§4.3) requires `transfer_active`/`transfer_state`/
`transfer_target` to be durably set before that call is issued. -/
theorem exit_ari_issues_continue_without_transfer_flags :
    (exit_ari_execute "default" "s" 1 []
        ⟨"call-1", some "channel-1", none, true, true, none, "deepgram", none⟩
        ⟨false, none, none⟩ (.returns true)).2.1 =
      [.continueInDialplan "channel-1" (.vstr "default") (.vstr "s") (.vint 1)] ∧
    (exit_ari_execute "default" "s" 1 []
        ⟨"call-1", some "channel-1", none, true, true, none, "deepgram", none⟩
        ⟨false, none, none⟩ (.returns true)).2.2.transfer_active = false ∧
    (exit_ari_execute "default" "s" 1 []
        ⟨"call-1", some "channel-1", none, true, true, none, "deepgram", none⟩
        ⟨false, none, none⟩ (.returns true)).2.2.transfer_state = none ∧
    (exit_ari_execute "default" "s" 1 []
        ⟨"call-1", some "channel-1", none, true, true, none, "deepgram", none⟩
        ⟨false, none, none⟩ (.returns true)).2.2.transfer_target = none ∧
    pyLookup (exit_ari_execute "default" "s" 1 []
        ⟨"call-1", some "channel-1", none, true, true, none, "deepgram", none⟩
        ⟨false, none, none⟩ (.returns true)).1 "status" = some (.vstr "success") :=
  ⟨rfl, rfl, rfl, rfl, rfl⟩

/-- C2 (spec-modelled): a `tts_only` pipeline entry without a non-empty `tts`
key fails normalization with a configuration error naming the missing `tts`
component (never a silent default); a `tts_only` entry with a `tts` key
normalizes to `stt_key = "none_stt"`, `llm_key = "none_llm"`,
`is_tts_only = true`, regardless of any declared `stt`/`llm` keys, with the
`tts` key and the options preserved unchanged. -/
theorem tts_only_normalization_spec :
    (∀ (name : String) (e : RawPipelineEntry), e.type = some "tts_only" →
      (e.tts = none ∨ e.tts = some "") →
      normalize_pipeline_entry name e =
        .error ("Pipeline '" ++ name ++ "' of type tts_only requires a 'tts' component")) ∧
    (∀ (name : String) (e : RawPipelineEntry) (t : String), e.type = some "tts_only" →
      e.tts = some t → t ≠ "" →
      normalize_pipeline_entry name e =
        .ok ⟨"tts_only", "none_stt", "none_llm", t, e.tools.getD [], e.options, true⟩) := by
  constructor
  · intro name e hty htts
    rw [normalize_pipeline_entry, hty]
    rcases htts with h | h <;> rw [h] <;> simp [Option.getD]
  · intro name e t hty htts hne
    rw [normalize_pipeline_entry, hty, htts]
    simp [Option.getD, hne]

/-- C2 witness: the normalization theorem applied at the broadcast entries of
the unit tests — a `tts_only` entry that declares `stt`/`llm` keys anyway is
still forced to the no-op sentinels, and one without `tts` errors. -/
theorem tts_only_normalization_spec_witness :
    normalize_pipeline_entry "broadcast"
        ⟨some "tts_only", some "openai_stt", some "openai_llm", some "openai_tts", none,
          [("tts", .vdict [("voice", .vstr "nova")])]⟩ =
      .ok ⟨"tts_only", "none_stt", "none_llm", "openai_tts", [],
        [("tts", .vdict [("voice", .vstr "nova")])], true⟩ ∧
    normalize_pipeline_entry "broadcast" ⟨some "tts_only", none, none, none, none, []⟩ =
      .error "Pipeline 'broadcast' of type tts_only requires a 'tts' component" :=
  ⟨tts_only_normalization_spec.2 "broadcast" _ "openai_tts" rfl rfl (by decide),
   tts_only_normalization_spec.1 "broadcast" _ rfl (Or.inl rfl)⟩

/-- C8: handling a tool-call event always produces a structured result dict
carrying the originating correlation id, and never raises (the handler is a
total function of the event, the context and the tool's outcome — the one
fallible step, the tool's `execute`, is wrapped at the execution boundary):
an unknown tool name yields `status = "error"` with a human-readable message;
an exception inside `execute` becomes `status = "error"` carrying the
failure detail instead of propagating; and when the tool returns a result
carrying a `status` (the tool execution contract), the handled result keeps
it. -/
theorem tool_call_event_structured_result (reg : List (String × DgTool))
    (event : DgEvent) (ctx : DgContext) :
    pyLookup (handle_tool_call_event reg event ctx) "function_call_id" = some event.id ∧
    (registryGet reg (dgEventName event) = none →
      pyLookup (handle_tool_call_event reg event ctx) "status" = some (.vstr "error") ∧
      pyLookup (handle_tool_call_event reg event ctx) "message" =
        some (.vstr ("Unknown tool: " ++ optNameRepr (dgEventName event)))) ∧
    (∀ tool msg, registryGet reg (dgEventName event) = some tool →
      tool.execute (dgEventParams event) (buildExecContext ctx) = .raises msg →
      pyLookup (handle_tool_call_event reg event ctx) "status" = some (.vstr "error") ∧
      pyLookup (handle_tool_call_event reg event ctx) "message" =
        some (.vstr ("Tool execution failed: " ++ msg))) ∧
    (∀ tool result sv, registryGet reg (dgEventName event) = some tool →
      tool.execute (dgEventParams event) (buildExecContext ctx) = .ok result →
      pyLookup result "status" = some sv →
      pyLookup (handle_tool_call_event reg event ctx) "status" = some sv) := by
  refine ⟨?_, ?_, ?_, ?_⟩
  · rw [handle_tool_call_event]
    rcases hreg : registryGet reg (dgEventName event) with _ | tool
    · simp only [hreg]
      simp [pyLookup]
    · simp only [hreg]
      rcases hex : tool.execute (dgEventParams event) (buildExecContext ctx) with result | msg
      · simp only [hex]
        rw [pyLookup_pySet]
        simp
      · simp only [hex]
        simp [pyLookup]
  · intro hreg
    rw [handle_tool_call_event]
    simp only [hreg]
    simp [pyLookup]
  · intro tool msg hreg hex
    rw [handle_tool_call_event]
    simp only [hreg, hex]
    simp [pyLookup]
  · intro tool result sv hreg hex hstat
    rw [handle_tool_call_event]
    simp only [hreg, hex]
    rw [pyLookup_pySet]
    simp [hstat]

/-- C8 witness: the structured-result theorem applied at a concrete event
whose tool name is unknown to an empty registry, and at a registry whose one
tool raises. -/
theorem tool_call_event_structured_result_witness :
    pyLookup (handle_tool_call_event []
        ⟨.vstr "fc-1", some ⟨some "transfer_call", []⟩⟩
        ⟨"call-1", none, none, true, true, none, none⟩) "status" = some (.vstr "error") ∧
    pyLookup (handle_tool_call_event [("boom", ⟨fun _ _ => .raises "division by zero"⟩)]
        ⟨.vstr "fc-2", some ⟨some "boom", []⟩⟩
        ⟨"call-1", none, none, true, true, none, none⟩) "message" =
      some (.vstr ("Tool execution failed: " ++ "division by zero")) :=
  ⟨((tool_call_event_structured_result [] ⟨.vstr "fc-1", some ⟨some "transfer_call", []⟩⟩
      ⟨"call-1", none, none, true, true, none, none⟩).2.1 rfl).1,
   ((tool_call_event_structured_result [("boom", ⟨fun _ _ => .raises "division by zero"⟩)]
      ⟨.vstr "fc-2", some ⟨some "boom", []⟩⟩
      ⟨"call-1", none, none, true, true, none, none⟩).2.2.1 _ "division by zero" rfl rfl).2⟩
